import Mathlib

/-
Verification of the z-units unit-conversion library (packages z_unit, z_units, zunits).

Modelling conventions:
- Numeric values (Python floats) are modelled as exact rationals; all catalog
  constants are transcribed as the exact rational value of the source literal.
- A factor or offset in the source is either a plain number or a zero-argument
  callable that reads the process-wide configuration.  The catalog contains
  exactly two shapes of callables: get_local_atmospheric_pressure itself, and
  lambdas of the form  k * 273.15 / (273.15 + get_standard_temperature()).
  Param captures literal numbers and these two callable shapes; resolve gives
  the value of Unit.factor / Unit.offset (the resolving properties).
- Python exceptions are modelled with Except String; a conversion that can
  legitimately return Python None is modelled with Option.
- Rational division is total in Lean (x / 0 = 0) while Python raises
  ZeroDivisionError; every theorem below that involves from_base_unit only
  does so at units whose resolved factor is nonzero, where both agree.
-/

/-- Process-wide mutable configuration of z_units/config.py: the standard
temperature (degC) and the local atmospheric pressure, read by dynamic
factor/offset callables at conversion time.  A conversion performed at one
moment sees one configuration snapshot, so conversions are modelled as
functions of a Config argument. -/
structure Config where
  standard_temperature : ℚ
  local_atmospheric_pressure : ℚ
deriving DecidableEq

/-- A factor or offset field of a Unit: either a literal number, or one of the
two callable shapes occurring in the catalog (get_local_atmospheric_pressure,
and the standard-condition lambda k * 273.15 / (273.15 + T_std)). -/
inductive Param where
  | lit (x : ℚ)
  | atmP
  | stdFactor (k : ℚ)
deriving DecidableEq

/-- Value of a factor/offset at configuration c: the body of the factor and
offset properties of Unit (call the stored field if callable, else use it). -/
def Param.resolve (c : Config) : Param → ℚ
  | Param.lit x => x
  | Param.atmP => c.local_atmospheric_pressure
  | Param.stdFactor k => k * (5463/20) / (5463/20 + c.standard_temperature)

/-- Python test factor == 0 in z_unit Unit.__init__: true only for the literal
number 0 (a callable compares unequal to 0). -/
def Param.isZeroLit : Param → Bool
  | Param.lit x => x == 0
  | _ => false

/-- Python symbol.replace(" ", "") used by Unit.__init__ in every variant. -/
def stripSpaces (s : String) : String :=
  String.mk (s.data.filter (fun ch => ch ≠ ' '))

/-- One step of multi_replace with the quick-style replacement table
(z_units/util.py multi_replace, longest pattern first): "**" is erased,
a single "*" becomes "-", parentheses are erased, all other characters kept. -/
def quickChars : List Char → List Char
  | [] => []
  | '*' :: '*' :: rest => quickChars rest
  | '*' :: rest => '-' :: quickChars rest
  | '(' :: rest => quickChars rest
  | ')' :: rest => quickChars rest
  | ch :: rest => ch :: quickChars rest

/-- The quick_style property of Unit: the display/lookup symbol derived from
the stored symbol text (empty symbols are returned unchanged). -/
def quickStyle (s : String) : String :=
  if s = "" then s else String.mk (quickChars s.data)

/-- A measurement unit: the stored symbol text (whitespace already stripped by
construction, Python field _symbol) with its conversion factor and offset
(Python fields _factor and _offset, literal or callable). -/
structure ZUnit where
  symbolRaw : String
  factor : Param
  offset : Param
deriving DecidableEq

/-- The symbol property of Unit: the quick-style form of the stored symbol,
used as the registry key. -/
def ZUnit.symbol (u : ZUnit) : String := quickStyle u.symbolRaw

/-- Unit.to_base_unit: value in this unit to value in the base unit,
factor * value + offset with factor and offset resolved at call time. -/
def ZUnit.to_base_unit (u : ZUnit) (c : Config) (v : ℚ) : ℚ :=
  u.factor.resolve c * v + u.offset.resolve c

/-- Unit.from_base_unit: value in the base unit to value in this unit,
(value - offset) / factor with factor and offset resolved at call time. -/
def ZUnit.from_base_unit (u : ZUnit) (c : Config) (v : ℚ) : ℚ :=
  (v - u.offset.resolve c) / u.factor.resolve c

/-- Unit.__init__ of z_unit/unit.py: when defined_by is a Unit its resolved
factor property (a number, read at construction time, hence the Config
argument) replaces the factor argument; a literal zero factor is rejected
with ValueError, and the symbol is stored whitespace-stripped. -/
def zuMkUnit (c : Config) (symbol : String) (definedBy : Option ZUnit)
    (factor : Param) (offset : Param) : Except String ZUnit :=
  let f : Param :=
    match definedBy with
    | Option.some u => Param.lit (u.factor.resolve c)
    | Option.none => factor
  if f.isZeroLit then Except.error "Factor shall not be 0"
  else Except.ok (ZUnit.mk (stripSpaces symbol) f offset)

/-- Unit.__init__ of z_units/unit.py: stores the stripped symbol and the
factor and offset fields unchanged; it performs no validation at all, so
construction always succeeds (there is no error channel). -/
def zusMkUnit (symbol : String) (factor : Param) (offset : Param) : ZUnit :=
  ZUnit.mk (stripSpaces symbol) factor offset

/-- A family of units around one base unit.  The units list keeps the
registration order of the source catalog; base_unit is the unit registered
as base (the BaseUnit instance / is_base=True registration). -/
structure UnitRegistry where
  units : List ZUnit
  base_unit : ZUnit
deriving DecidableEq

/-- UnitRegistry.get_unit: exact-match lookup of the raw query string against
the stored (already normalized) symbols; ValueError when absent.  The query
itself is not normalized in either variant of the source. -/
def UnitRegistry.get_unit (r : UnitRegistry) (symbol : String) : Except String ZUnit :=
  match r.units.find? (fun u => u.symbol == symbol) with
  | Option.some u => Except.ok u
  | Option.none => Except.error "unit not found"

/-- UnitRegistry.symbols: the registry keys, in registration order. -/
def UnitRegistry.symbols (r : UnitRegistry) : List String :=
  r.units.map ZUnit.symbol

/-- A quantity: a kind tag (the concrete Python class name; all concrete kinds
are sibling leaf subclasses of Quantity, so the isinstance checks of the
source coincide with equality of kind tags), the UnitRegistry the kind is
bound to, a nullable value, and the resolved current unit. -/
structure Quantity where
  kind : String
  reg : UnitRegistry
  value : Option ℚ
  unit : ZUnit
deriving DecidableEq

/-- Quantity.__init__ of z_units/quantity.py: no unit argument means the base
unit of the bound registry; a symbol argument is resolved by get_unit and
resolution failure propagates. -/
def Quantity.make (kind : String) (r : UnitRegistry) (value : Option ℚ)
    (unitSym : Option String) : Except String Quantity :=
  match unitSym with
  | Option.none => Except.ok (Quantity.mk kind r value r.base_unit)
  | Option.some s => (r.get_unit s).map (fun u => Quantity.mk kind r value u)

/-- Quantity.to of z_units/quantity.py: None value propagates as None;
otherwise the value goes through the base unit of the family and the result
is a fresh quantity of the same kind built from the converted value and the
target symbol.  (The zunits variant adds a return-self short-circuit when the
resolved target is the current unit object; with a base unit of factor 1 and
offset 0 that short-circuit returns the same value and unit as the generic
path, so it is not modelled separately.) -/
def Quantity.to (c : Config) (q : Quantity) (target : String) :
    Except String (Option Quantity) :=
  match q.value with
  | Option.none => Except.ok Option.none
  | Option.some v =>
    let ref := q.unit.to_base_unit c v
    match q.reg.get_unit target with
    | Except.error e => Except.error e
    | Except.ok t =>
      (Quantity.make q.kind q.reg (Option.some (t.from_base_unit c ref))
        (Option.some target)).map Option.some

/-- Quantity.to_base: conversion to the base unit of the bound registry; the
unit argument str(base_unit) is the symbol of the base unit (Unit.__str__ of
z_unit/unit.py returns the symbol property). -/
def Quantity.to_base (c : Config) (q : Quantity) : Except String (Option Quantity) :=
  q.to c q.reg.base_unit.symbol

/-- The expression self.to_base().value used by the comparison methods of
zunits/quantity.py: a missing value makes to_base return None and the .value
attribute access then raises (modelled as an error), as does a failing base
unit lookup. -/
def Quantity.toBaseValue (c : Config) (q : Quantity) : Except String ℚ :=
  match q.to_base c with
  | Except.error e => Except.error e
  | Except.ok Option.none => Except.error "NoneType has no attribute value"
  | Except.ok (Option.some p) =>
    match p.value with
    | Option.some v => Except.ok v
    | Option.none => Except.error "no value"

/-- Quantity.__eq__ of zunits/quantity.py: same concrete kind compares base
values, any other operand compares as False. -/
def Quantity.eq (c : Config) (a b : Quantity) : Except String Bool :=
  if a.kind == b.kind then
    match a.toBaseValue c with
    | Except.error e => Except.error e
    | Except.ok x =>
      match b.toBaseValue c with
      | Except.error e => Except.error e
      | Except.ok y => Except.ok (decide (x = y))
  else Except.ok false

/-- Quantity.__gt__ of zunits/quantity.py: same concrete kind compares base
values; for any other operand the method falls off the end and returns
Python None (modelled as Option.none inside ok). -/
def Quantity.gt (c : Config) (a b : Quantity) : Except String (Option Bool) :=
  if a.kind == b.kind then
    match a.toBaseValue c with
    | Except.error e => Except.error e
    | Except.ok x =>
      match b.toBaseValue c with
      | Except.error e => Except.error e
      | Except.ok y => Except.ok (Option.some (decide (y < x)))
  else Except.ok Option.none

/-- Quantity.__ge__ of zunits/quantity.py: same shape as __gt__. -/
def Quantity.ge (c : Config) (a b : Quantity) : Except String (Option Bool) :=
  if a.kind == b.kind then
    match a.toBaseValue c with
    | Except.error e => Except.error e
    | Except.ok x =>
      match b.toBaseValue c with
      | Except.error e => Except.error e
      | Except.ok y => Except.ok (Option.some (decide (y ≤ x)))
  else Except.ok Option.none

/-- The Python expression a < b: no __lt__ is defined, so Python evaluates the
reflected operator b.__gt__(a) and returns its result unchanged. -/
def Quantity.lt (c : Config) (a b : Quantity) : Except String (Option Bool) :=
  Quantity.gt c b a

/-- The Python expression a <= b: reflected to b.__ge__(a). -/
def Quantity.le (c : Config) (a b : Quantity) : Except String (Option Bool) :=
  Quantity.ge c b a

/-- The right operand of Quantity.__mul__: a plain number or another Quantity. -/
inductive MulOperand where
  | num (n : ℚ)
  | quant (q : Quantity)

/-- Quantity.__mul__ of zunits/quantity.py: a number operand builds a fresh
quantity of the same kind from value * number and the current unit (the unit
setter re-resolves str(self.unit), the symbol of the current unit, against
the registry); a missing value makes the Python multiplication raise.  Any
non-number operand returns NotImplemented, and since numbers and Quantity
define no matching reflected operator Python then raises TypeError: this
whole unsupported branch is modelled as Option.none. -/
def Quantity.mul (q : Quantity) (other : MulOperand) :
    Option (Except String Quantity) :=
  match other with
  | MulOperand.num n =>
    Option.some
      (match q.value with
      | Option.none => Except.error "unsupported operand"
      | Option.some v =>
        (q.reg.get_unit q.unit.symbol).map
          (fun u => Quantity.mk q.kind q.reg (Option.some (v * n)) u))
  | MulOperand.quant _ => Option.none

/-- Quantity.__rmul__ of zunits/quantity.py: return self * other. -/
def Quantity.rmul (other : MulOperand) (q : Quantity) :
    Option (Except String Quantity) :=
  q.mul other

/-- Claim C2: a unit with fixed numeric factor and offset and nonzero factor
converts back and forth without loss: from_base_unit after to_base_unit is
the identity, exactly, for every value and every configuration. -/
theorem unit_round_trip (sym : String) (f o : ℚ) (hf : f ≠ 0) (c : Config) (v : ℚ) :
    (ZUnit.mk sym (Param.lit f) (Param.lit o)).from_base_unit c
      ((ZUnit.mk sym (Param.lit f) (Param.lit o)).to_base_unit c v) = v := by
  simp only [ZUnit.from_base_unit, ZUnit.to_base_unit, Param.resolve]
  field_simp

/-- Witness for Claim C2 at the kilometer unit (factor 1000, offset 0),
value 7/3, default configuration. -/
theorem unit_round_trip_witness :
    (1000 : ℚ) ≠ 0 ∧
      (ZUnit.mk "km" (Param.lit 1000) (Param.lit 0)).from_base_unit
        (Config.mk 20 (101325/1000))
        ((ZUnit.mk "km" (Param.lit 1000) (Param.lit 0)).to_base_unit
          (Config.mk 20 (101325/1000)) (7/3)) = 7/3 :=
  And.intro (by norm_num)
    (unit_round_trip "km" 1000 0 (by norm_num) (Config.mk 20 (101325/1000)) (7/3))

/-- Standard gravity constant.G. Modelled from the spec: the constant module
of the repository is not under src/; this value only enters catalog factors
(kgf, psi, ...) that no claim evaluates numerically. -/
def constantG : ℚ := 980665/100000

/-- Standard atmosphere constant.ATM of the z_units package, in kPa.
Modelled from the spec: the constant module is not under src/; the
z_units/config.py docstring fixes the default local atmospheric pressure at
101.325 kPa. -/
def zusATM : ℚ := 101325/1000

/-- Default configuration of z_units/config.py: standard temperature 20 degC,
local atmospheric pressure the standard atmosphere. -/
def defaultConfig : Config := Config.mk 20 zusATM

namespace zus

/-! Catalog of z_units/unit.py, transcribed unit by unit; registries follow
z_units/unit_registry.py with their registration order and base flags. -/

def meter : ZUnit := ZUnit.mk "m" (Param.lit 1) (Param.lit 0)

def kilometer : ZUnit := ZUnit.mk "km" (Param.lit 1000) (Param.lit 0)

def decimeter : ZUnit := ZUnit.mk "dm" (Param.lit (1/10)) (Param.lit 0)

def centimeter : ZUnit := ZUnit.mk "cm" (Param.lit (1/100)) (Param.lit 0)

def millimeter : ZUnit := ZUnit.mk "mm" (Param.lit (1/1000)) (Param.lit 0)

def micrometer : ZUnit := ZUnit.mk "um" (Param.lit (1/1000000)) (Param.lit 0)

def foot : ZUnit := ZUnit.mk "ft" (Param.lit (3048/10000)) (Param.lit 0)

def inch : ZUnit := ZUnit.mk "in" (Param.lit (254/10000)) (Param.lit 0)

def kilogram : ZUnit := ZUnit.mk "kg" (Param.lit 1) (Param.lit 0)

def gram : ZUnit := ZUnit.mk "g" (Param.lit (1/1000)) (Param.lit 0)

def tonne : ZUnit := ZUnit.mk "t" (Param.lit 1000) (Param.lit 0)

def pound : ZUnit := ZUnit.mk "lb" (Param.lit (45359237/100000000)) (Param.lit 0)

def kilopascal : ZUnit := ZUnit.mk "kPa" (Param.lit 1) (Param.lit 0)

def megapascal : ZUnit := ZUnit.mk "MPa" (Param.lit 1000) (Param.lit 0)

def bar : ZUnit := ZUnit.mk "bar" (Param.lit 100) (Param.lit 0)

def millibar : ZUnit := ZUnit.mk "mbar" (Param.lit (1/10)) (Param.lit 0)

def pascal : ZUnit := ZUnit.mk "Pa" (Param.lit (1/1000)) (Param.lit 0)

def atm : ZUnit := ZUnit.mk "atm" (Param.lit zusATM) (Param.lit 0)

def kg_force_per_square_centimeter : ZUnit :=
  ZUnit.mk "kgf/cm**2" (Param.lit ((1/1000) * constantG / ((1/100)^2))) (Param.lit 0)

def psi : ZUnit :=
  ZUnit.mk "psi"
    (Param.lit ((1/1000) * ((45359237/100000000) * constantG) / ((254/10000)^2)))
    (Param.lit 0)

def pound_force_per_square_foot : ZUnit :=
  ZUnit.mk "lbf/ft**2"
    (Param.lit ((1/1000) * ((45359237/100000000) * constantG) / ((3048/10000)^2)))
    (Param.lit 0)

def torr : ZUnit := ZUnit.mk "torr" (Param.lit ((101325/1000) / 760)) (Param.lit 0)

def mm_Hg : ZUnit := ZUnit.mk "mmHg_0C" (Param.lit ((101325/1000) / 760)) (Param.lit 0)

def inch_Hg : ZUnit := ZUnit.mk "inHg_32F" (Param.lit (3386389/1000000)) (Param.lit 0)

def inch_Hg_60F : ZUnit := ZUnit.mk "inHg_60F" (Param.lit (337685/100000)) (Param.lit 0)

def kilopascal_gauge : ZUnit := ZUnit.mk "kPag" (Param.lit 1) Param.atmP

def megapascal_gauge : ZUnit := ZUnit.mk "MPag" (Param.lit 1000) Param.atmP

def bar_gauge : ZUnit := ZUnit.mk "barg" (Param.lit 100) Param.atmP

def millibar_gauge : ZUnit := ZUnit.mk "mbarg" (Param.lit (1/10)) Param.atmP

def kg_force_per_square_centimeter_gauge : ZUnit :=
  ZUnit.mk "kgf/cm**2_g" (Param.lit ((1/1000) * constantG / ((1/100)^2))) Param.atmP

def psi_gauge : ZUnit :=
  ZUnit.mk "psig"
    (Param.lit ((1/1000) * ((45359237/100000000) * constantG) / ((254/10000)^2)))
    Param.atmP

def pound_force_per_square_foot_gauge : ZUnit :=
  ZUnit.mk "lbf/ft**2_g"
    (Param.lit ((1/1000) * ((45359237/100000000) * constantG) / ((3048/10000)^2)))
    Param.atmP

def torr_gauge : ZUnit := ZUnit.mk "torr_g" (Param.lit ((101325/1000) / 760)) Param.atmP

def mm_Hg_gauge : ZUnit :=
  ZUnit.mk "mmHg_0C_g" (Param.lit ((101325/1000) / 760)) Param.atmP

def inch_Hg_gauge : ZUnit :=
  ZUnit.mk "inHg_32F_g" (Param.lit (3386389/1000000)) Param.atmP

def inch_Hg_60F_gauge : ZUnit :=
  ZUnit.mk "inHg_60F_g" (Param.lit (337685/100000)) Param.atmP

def kilomole_per_second : ZUnit := ZUnit.mk "kmol/s" (Param.lit 1) (Param.lit 0)

def kilomole_per_hour : ZUnit := ZUnit.mk "kmol/h" (Param.lit (1/3600)) (Param.lit 0)

def kilomole_per_minute : ZUnit := ZUnit.mk "kmol/min" (Param.lit (1/60)) (Param.lit 0)

def normal_cubic_meter_per_hour : ZUnit :=
  ZUnit.mk "Nm**3/h" (Param.lit ((1000/22414) / 3600)) (Param.lit 0)

def normal_cubic_meter_per_day : ZUnit :=
  ZUnit.mk "Nm**3/d" (Param.lit ((1000/22414) / 86400)) (Param.lit 0)

/-- The z_units/unit.py line 300 unit for Sm**3/h.  The constructor argument
standard_cubic_meter.factor / hour.factor calls the factor property of the
dynamic standard_cubic_meter unit once, at import time, under the default
configuration, so the stored factor is a plain number frozen at standard
temperature 20 rather than a callable. -/
def standard_cubic_meter_per_hour : ZUnit :=
  ZUnit.mk "Sm**3/h"
    (Param.lit (Param.resolve defaultConfig (Param.stdFactor (1000/22414)) / 3600))
    (Param.lit 0)

/-- The z_units/unit.py line 301 unit for Sm**3/d, frozen at import exactly as
the Sm**3/h unit above. -/
def standard_cubic_meter_per_day : ZUnit :=
  ZUnit.mk "Sm**3/d"
    (Param.lit (Param.resolve defaultConfig (Param.stdFactor (1000/22414)) / 86400))
    (Param.lit 0)

/-- Unit registered as Sm**3_20C/h by z_units/unit_registry.py.  The defining
module z_units/unit.py has no such unit (the registry file references a
newer catalog); its factor is transcribed from the equivalent definition
standard_cubic_meter_20C / hour of z_unit/unit.py. -/
def standard_cubic_meter_20C_per_hour : ZUnit :=
  ZUnit.mk "Sm**3_20C/h"
    (Param.lit ((1000/22414) * (5463/20) / (5863/20) / 3600)) (Param.lit 0)

/-- Companion of the 20C unit above, transcribed from
standard_cubic_meter_60F / hour of z_unit/unit.py. -/
def standard_cubic_meter_60F_per_hour : ZUnit :=
  ZUnit.mk "Sm**3_60F/h"
    (Param.lit ((1000/22414) * (5463/20) / (51967/180) / 3600)) (Param.lit 0)

/-- Per-day companion of the 20C unit, from z_unit/unit.py. -/
def standard_cubic_meter_20C_per_day : ZUnit :=
  ZUnit.mk "Sm**3_20C/d"
    (Param.lit ((1000/22414) * (5463/20) / (5863/20) / 86400)) (Param.lit 0)

/-- Per-day companion of the 60F unit, from z_unit/unit.py. -/
def standard_cubic_meter_60F_per_day : ZUnit :=
  ZUnit.mk "Sm**3_60F/d"
    (Param.lit ((1000/22414) * (5463/20) / (51967/180) / 86400)) (Param.lit 0)

def mole_per_hour : ZUnit :=
  ZUnit.mk "mol/h" (Param.lit ((1/1000) / 3600)) (Param.lit 0)

def mole_per_minute : ZUnit :=
  ZUnit.mk "mol/min" (Param.lit ((1/1000) / 60)) (Param.lit 0)

def mole_per_second : ZUnit := ZUnit.mk "mol/s" (Param.lit (1/1000)) (Param.lit 0)

/-- Factor of standard_cubic_foot of z_units/unit.py:
normal_cubic_meter.factor * cubic_foot.factor * T_0C_inK / T_60F_inK. -/
def scfFactor : ℚ := (1000/22414) * ((3048/10000)^3) * (5463/20) / (51967/180)

def standard_cubic_foot_per_day : ZUnit :=
  ZUnit.mk "SCFD" (Param.lit (scfFactor / 86400)) (Param.lit 0)

def kilo_standard_cubic_foot_per_hour : ZUnit :=
  ZUnit.mk "MSCFH" (Param.lit (1000 * scfFactor / 3600)) (Param.lit 0)

def kilo_standard_cubic_foot_per_day : ZUnit :=
  ZUnit.mk "MSCFD" (Param.lit (1000 * scfFactor / 86400)) (Param.lit 0)

def million_standard_cubic_foot_per_hour : ZUnit :=
  ZUnit.mk "MMSCFH" (Param.lit (1000000 * scfFactor / 3600)) (Param.lit 0)

def million_standard_cubic_foot_per_day : ZUnit :=
  ZUnit.mk "MMSCFD" (Param.lit (1000000 * scfFactor / 86400)) (Param.lit 0)

/-- The length registry of z_units/unit_registry.py (meter is base). -/
def length : UnitRegistry :=
  UnitRegistry.mk
    [meter, kilometer, decimeter, centimeter, millimeter, micrometer, foot, inch]
    meter

/-- The mass registry of z_units/unit_registry.py (kilogram is base). -/
def mass : UnitRegistry :=
  UnitRegistry.mk [kilogram, gram, tonne, pound] kilogram

/-- The pressure registry of z_units/unit_registry.py.  Note that this file
registers pascal with is_base=True even though the unit factors of
z_units/unit.py are relative to the kilopascal; the base flag only affects
the default unit and the to_base target. -/
def pressure : UnitRegistry :=
  UnitRegistry.mk
    [pascal, kilopascal, megapascal, bar, millibar, atm,
     kg_force_per_square_centimeter, psi, pound_force_per_square_foot,
     torr, mm_Hg, inch_Hg, inch_Hg_60F,
     kilopascal_gauge, megapascal_gauge, bar_gauge, millibar_gauge,
     kg_force_per_square_centimeter_gauge, psi_gauge,
     pound_force_per_square_foot_gauge, torr_gauge, mm_Hg_gauge,
     inch_Hg_gauge, inch_Hg_60F_gauge]
    pascal

/-- The molar_flow registry of z_units/unit_registry.py (kmol/s is base). -/
def molar_flow : UnitRegistry :=
  UnitRegistry.mk
    [kilomole_per_second, kilomole_per_hour, kilomole_per_minute,
     normal_cubic_meter_per_hour, normal_cubic_meter_per_day,
     standard_cubic_meter_per_hour, standard_cubic_meter_20C_per_hour,
     standard_cubic_meter_60F_per_hour, standard_cubic_meter_per_day,
     standard_cubic_meter_20C_per_day, standard_cubic_meter_60F_per_day,
     mole_per_hour, mole_per_minute, mole_per_second,
     standard_cubic_foot_per_day, kilo_standard_cubic_foot_per_hour,
     kilo_standard_cubic_foot_per_day, million_standard_cubic_foot_per_hour,
     million_standard_cubic_foot_per_day]
    kilomole_per_second

/-- The conversion exercised by Claim C4: MolarFlow(1, "Nm3/h").to("Sm3/h")
at configuration c, through the z_units catalog. -/
def nm3hToSm3h (c : Config) : Except String (Option Quantity) :=
  match Quantity.make "MolarFlow" molar_flow (Option.some 1) (Option.some "Nm3/h") with
  | Except.error e => Except.error e
  | Except.ok q => q.to c "Sm3/h"

/-- The conversion exercised by Claim C5: Pressure(p, "kPa").to("kPag") at
configuration c, through the z_units catalog. -/
def kPaToKPag (c : Config) (p : ℚ) : Except String (Option Quantity) :=
  match Quantity.make "Pressure" pressure (Option.some p) (Option.some "kPa") with
  | Except.error e => Except.error e
  | Except.ok q => q.to c "kPag"

end zus

/-- Standard atmosphere constant.ATM of the z_unit package, in Pa.
Modelled from the spec: the constant module is not under src/; the z_unit
pressure catalog is pascal-based and the spec names the default the standard
atmosphere constant. -/
def zuATM : ℚ := 101325

namespace zu

/-! Catalog of z_unit/unit.py.  A unit defined with defined_by=expr stores the
resolved numeric factor of the expression at import time; every such factor
below is the exact rational value of that expression.  Registries follow
z_unit/unit_registry.py: the units list keeps the list order of the source
and base_unit is the BaseUnit instance found in the list. -/

def meter : ZUnit := ZUnit.mk "m" (Param.lit 1) (Param.lit 0)

def kilometer : ZUnit := ZUnit.mk "km" (Param.lit 1000) (Param.lit 0)

def decimeter : ZUnit := ZUnit.mk "dm" (Param.lit (1/10)) (Param.lit 0)

def centimeter : ZUnit := ZUnit.mk "cm" (Param.lit (1/100)) (Param.lit 0)

def millimeter : ZUnit := ZUnit.mk "mm" (Param.lit (1/1000)) (Param.lit 0)

def micrometer : ZUnit := ZUnit.mk "um" (Param.lit (1/1000000)) (Param.lit 0)

def foot : ZUnit := ZUnit.mk "ft" (Param.lit (3048/10000)) (Param.lit 0)

def inch : ZUnit := ZUnit.mk "in" (Param.lit (254/10000)) (Param.lit 0)

def square_meter : ZUnit := ZUnit.mk "m**2" (Param.lit 1) (Param.lit 0)

def square_kilometer : ZUnit := ZUnit.mk "km**2" (Param.lit (1000^2)) (Param.lit 0)

def square_decimeter : ZUnit := ZUnit.mk "dm**2" (Param.lit ((1/10)^2)) (Param.lit 0)

def square_centimeter : ZUnit := ZUnit.mk "cm**2" (Param.lit ((1/100)^2)) (Param.lit 0)

def square_millimeter : ZUnit := ZUnit.mk "mm**2" (Param.lit ((1/1000)^2)) (Param.lit 0)

def square_micrometer : ZUnit :=
  ZUnit.mk "um**2" (Param.lit ((1/1000000)^2)) (Param.lit 0)

def square_foot : ZUnit := ZUnit.mk "ft**2" (Param.lit ((3048/10000)^2)) (Param.lit 0)

def square_inch : ZUnit := ZUnit.mk "in**2" (Param.lit ((254/10000)^2)) (Param.lit 0)

def cubic_meter : ZUnit := ZUnit.mk "m**3" (Param.lit 1) (Param.lit 0)

def cubic_centimeter : ZUnit := ZUnit.mk "cm**3" (Param.lit ((1/100)^3)) (Param.lit 0)

def cubic_millimeter : ZUnit := ZUnit.mk "mm**3" (Param.lit ((1/1000)^3)) (Param.lit 0)

def liter : ZUnit := ZUnit.mk "L" (Param.lit ((1/10)^3)) (Param.lit 0)

def milliliter : ZUnit := ZUnit.mk "mL" (Param.lit ((1/100)^3)) (Param.lit 0)

def cubic_foot : ZUnit := ZUnit.mk "ft**3" (Param.lit ((3048/10000)^3)) (Param.lit 0)

def cubic_inch : ZUnit := ZUnit.mk "in**3" (Param.lit ((254/10000)^3)) (Param.lit 0)

def gallon : ZUnit := ZUnit.mk "gal" (Param.lit (231 * (254/10000)^3)) (Param.lit 0)

def barrel : ZUnit :=
  ZUnit.mk "bbl" (Param.lit (42 * (231 * (254/10000)^3))) (Param.lit 0)

def second : ZUnit := ZUnit.mk "s" (Param.lit 1) (Param.lit 0)

def minute : ZUnit := ZUnit.mk "min" (Param.lit 60) (Param.lit 0)

def hour : ZUnit := ZUnit.mk "hr" (Param.lit 3600) (Param.lit 0)

def day : ZUnit := ZUnit.mk "day" (Param.lit 86400) (Param.lit 0)

def week : ZUnit := ZUnit.mk "week" (Param.lit 604800) (Param.lit 0)

def year : ZUnit := ZUnit.mk "yr" (Param.lit 31536000) (Param.lit 0)

def month : ZUnit := ZUnit.mk "mon" (Param.lit 2628000) (Param.lit 0)

def meter_per_second : ZUnit := ZUnit.mk "m/s" (Param.lit 1) (Param.lit 0)

def meter_per_minute : ZUnit := ZUnit.mk "m/min" (Param.lit (1/60)) (Param.lit 0)

def meter_per_hour : ZUnit := ZUnit.mk "m/hr" (Param.lit (1/3600)) (Param.lit 0)

def kilometer_per_hour : ZUnit :=
  ZUnit.mk "km/hr" (Param.lit (1000/3600)) (Param.lit 0)

def centimeter_per_second : ZUnit :=
  ZUnit.mk "cm/s" (Param.lit (1/100)) (Param.lit 0)

def foot_per_second : ZUnit := ZUnit.mk "ft/s" (Param.lit (3048/10000)) (Param.lit 0)

def foot_per_minute : ZUnit :=
  ZUnit.mk "ft/min" (Param.lit ((3048/10000)/60)) (Param.lit 0)

def foot_per_hour : ZUnit :=
  ZUnit.mk "ft/hr" (Param.lit ((3048/10000)/3600)) (Param.lit 0)

def celsius : ZUnit := ZUnit.mk "C" (Param.lit 1) (Param.lit 0)

def kelvin : ZUnit := ZUnit.mk "K" (Param.lit 1) (Param.lit (-(5463/20)))

def rankine : ZUnit := ZUnit.mk "R" (Param.lit (5/9)) (Param.lit (-(5463/20)))

def fahrenheit : ZUnit := ZUnit.mk "F" (Param.lit (5/9)) (Param.lit (-(160/9)))

def kilogram : ZUnit := ZUnit.mk "kg" (Param.lit 1) (Param.lit 0)

def gram : ZUnit := ZUnit.mk "g" (Param.lit (1/1000)) (Param.lit 0)

def tonne : ZUnit := ZUnit.mk "t" (Param.lit 1000) (Param.lit 0)

def pound : ZUnit := ZUnit.mk "lb" (Param.lit (45359237/100000000)) (Param.lit 0)

def newton : ZUnit := ZUnit.mk "N" (Param.lit 1) (Param.lit 0)

def kilogram_meter_per_second_squared : ZUnit :=
  ZUnit.mk "kg*m/s**2" (Param.lit 1) (Param.lit 0)

def kilo_newton : ZUnit := ZUnit.mk "kN" (Param.lit 1000) (Param.lit 0)

def dyne : ZUnit := ZUnit.mk "dyn" (Param.lit (1/100000)) (Param.lit 0)

def kilogram_force : ZUnit := ZUnit.mk "kgf" (Param.lit constantG) (Param.lit 0)

def tonne_force : ZUnit :=
  ZUnit.mk "tonf" (Param.lit (constantG * 1000)) (Param.lit 0)

def pound_force : ZUnit :=
  ZUnit.mk "lbf" (Param.lit (constantG * (45359237/100000000))) (Param.lit 0)

def kilomole : ZUnit := ZUnit.mk "kmol" (Param.lit 1) (Param.lit 0)

def mole : ZUnit := ZUnit.mk "mol" (Param.lit (1/1000)) (Param.lit 0)

def normal_cubic_meter : ZUnit :=
  ZUnit.mk "Nm**3" (Param.lit (1000/22414)) (Param.lit 0)

/-- The dynamic standard cubic meter of z_unit/unit.py: its factor is the
lambda normal_cubic_meter.factor * T_0C / (T_0C + get_standard_temperature()),
re-read from the configuration on every conversion. -/
def standard_cubic_meter : ZUnit :=
  ZUnit.mk "Sm**3" (Param.stdFactor (1000/22414)) (Param.lit 0)

def standard_cubic_meter_20C : ZUnit :=
  ZUnit.mk "Sm**3_20C"
    (Param.lit ((1000/22414) * (5463/20) / (5863/20))) (Param.lit 0)

def standard_cubic_meter_60F : ZUnit :=
  ZUnit.mk "Sm**3_60F"
    (Param.lit ((1000/22414) * (5463/20) / (51967/180))) (Param.lit 0)

/-- Factor of standard_cubic_foot of z_unit/unit.py, the resolved value of
normal_cubic_meter * cubic_foot * T_0C / T_60F. -/
def scfFactor : ℚ := (1000/22414) * ((3048/10000)^3) * (5463/20) / (51967/180)

def standard_cubic_foot : ZUnit := ZUnit.mk "SCF" (Param.lit scfFactor) (Param.lit 0)

def kilo_standard_cubic_foot : ZUnit :=
  ZUnit.mk "MSCF" (Param.lit (1000 * scfFactor)) (Param.lit 0)

def million_standard_cubic_foot : ZUnit :=
  ZUnit.mk "MMSCF" (Param.lit (1000000 * scfFactor)) (Param.lit 0)

def kilojoule : ZUnit := ZUnit.mk "kJ" (Param.lit 1) (Param.lit 0)

def joule : ZUnit := ZUnit.mk "J" (Param.lit (1/1000)) (Param.lit 0)

def megajoule : ZUnit := ZUnit.mk "MJ" (Param.lit 1000) (Param.lit 0)

def gigajoule : ZUnit := ZUnit.mk "GJ" (Param.lit 1000000) (Param.lit 0)

def kilowatt_hour : ZUnit := ZUnit.mk "kW*h" (Param.lit 3600) (Param.lit 0)

def kilowatt_year : ZUnit := ZUnit.mk "kW*yr" (Param.lit 31536000) (Param.lit 0)

def calorie : ZUnit := ZUnit.mk "cal" (Param.lit (4184/1000000)) (Param.lit 0)

def kilocalorie : ZUnit :=
  ZUnit.mk "kcal" (Param.lit (1000 * (4184/1000000))) (Param.lit 0)

def megacalorie : ZUnit :=
  ZUnit.mk "Mcal" (Param.lit (1000000 * (4184/1000000))) (Param.lit 0)

def gigacalorie : ZUnit :=
  ZUnit.mk "Gcal" (Param.lit (1000000000 * (4184/1000000))) (Param.lit 0)

def million_kilocalorie : ZUnit :=
  ZUnit.mk "MMkcal" (Param.lit (1000000 * (1000 * (4184/1000000)))) (Param.lit 0)

def british_thermal_unit : ZUnit :=
  ZUnit.mk "Btu" (Param.lit (1055056/1000000)) (Param.lit 0)

def million_british_thermal_unit : ZUnit :=
  ZUnit.mk "MMBtu" (Param.lit (1000000 * (1055056/1000000))) (Param.lit 0)

def pound_force_foot : ZUnit :=
  ZUnit.mk "lbf*ft"
    (Param.lit ((1/1000) * (constantG * (45359237/100000000)) * (3048/10000)))
    (Param.lit 0)

def delta_celsius : ZUnit := ZUnit.mk "C" (Param.lit 1) (Param.lit 0)

def delta_kelvin : ZUnit := ZUnit.mk "K" (Param.lit 1) (Param.lit 0)

def delta_rankine : ZUnit := ZUnit.mk "R" (Param.lit (5/9)) (Param.lit 0)

def delta_fahrenheit : ZUnit := ZUnit.mk "F" (Param.lit (5/9)) (Param.lit 0)

def pascal : ZUnit := ZUnit.mk "Pa" (Param.lit 1) (Param.lit 0)

def kilopascal : ZUnit := ZUnit.mk "kPa" (Param.lit 1000) (Param.lit 0)

def megapascal : ZUnit := ZUnit.mk "MPa" (Param.lit 1000000) (Param.lit 0)

def bar : ZUnit := ZUnit.mk "bar" (Param.lit 100000) (Param.lit 0)

def millibar : ZUnit := ZUnit.mk "mbar" (Param.lit 100) (Param.lit 0)

def atm : ZUnit := ZUnit.mk "atm" (Param.lit zuATM) (Param.lit 0)

def kg_force_per_square_centimeter : ZUnit :=
  ZUnit.mk "kgf/cm**2" (Param.lit (constantG / ((1/100)^2))) (Param.lit 0)

def psi : ZUnit :=
  ZUnit.mk "psi"
    (Param.lit ((constantG * (45359237/100000000)) / ((254/10000)^2)))
    (Param.lit 0)

def pound_force_per_square_foot : ZUnit :=
  ZUnit.mk "lbf/ft**2"
    (Param.lit ((constantG * (45359237/100000000)) / ((3048/10000)^2)))
    (Param.lit 0)

def torr : ZUnit := ZUnit.mk "torr" (Param.lit (zuATM / 760)) (Param.lit 0)

def mm_Hg : ZUnit := ZUnit.mk "mmHg_0C" (Param.lit (zuATM / 760)) (Param.lit 0)

def inch_Hg : ZUnit :=
  ZUnit.mk "inHg_32F" (Param.lit (1000 * (3386389/1000000))) (Param.lit 0)

def inch_Hg_60F : ZUnit :=
  ZUnit.mk "inHg_60F" (Param.lit (1000 * (337685/100000))) (Param.lit 0)

def kilopascal_gauge : ZUnit := ZUnit.mk "kPag" (Param.lit 1000) Param.atmP

def megapascal_gauge : ZUnit := ZUnit.mk "MPag" (Param.lit 1000000) Param.atmP

def bar_gauge : ZUnit := ZUnit.mk "barg" (Param.lit 100000) Param.atmP

def millibar_gauge : ZUnit := ZUnit.mk "mbarg" (Param.lit 100) Param.atmP

def kg_force_per_square_centimeter_gauge : ZUnit :=
  ZUnit.mk "kgf/cm**2_g" (Param.lit (constantG / ((1/100)^2))) Param.atmP

def psi_gauge : ZUnit :=
  ZUnit.mk "psig"
    (Param.lit ((constantG * (45359237/100000000)) / ((254/10000)^2))) Param.atmP

def pound_force_per_square_foot_gauge : ZUnit :=
  ZUnit.mk "lbf/ft**2_g"
    (Param.lit ((constantG * (45359237/100000000)) / ((3048/10000)^2))) Param.atmP

def torr_gauge : ZUnit := ZUnit.mk "torr_g" (Param.lit (zuATM / 760)) Param.atmP

def mm_Hg_gauge : ZUnit := ZUnit.mk "mmHg_0C_g" (Param.lit (zuATM / 760)) Param.atmP

def inch_Hg_gauge : ZUnit :=
  ZUnit.mk "inHg_32F_g" (Param.lit (1000 * (3386389/1000000))) Param.atmP

def inch_Hg_60F_gauge : ZUnit :=
  ZUnit.mk "inHg_60F_g" (Param.lit (1000 * (337685/100000))) Param.atmP

end zu

namespace zu

def kilomole_per_second : ZUnit := ZUnit.mk "kmol/s" (Param.lit 1) (Param.lit 0)

def kilomole_per_hour : ZUnit := ZUnit.mk "kmol/h" (Param.lit (1/3600)) (Param.lit 0)

def kilomole_per_minute : ZUnit := ZUnit.mk "kmol/min" (Param.lit (1/60)) (Param.lit 0)

def normal_cubic_meter_per_hour : ZUnit :=
  ZUnit.mk "Nm**3/h" (Param.lit ((1000/22414) / 3600)) (Param.lit 0)

def normal_cubic_meter_per_day : ZUnit :=
  ZUnit.mk "Nm**3/d" (Param.lit ((1000/22414) / 86400)) (Param.lit 0)

/-- The dynamic Sm**3/h of z_unit/unit.py lines 365-367: the factor is the
lambda normal_cubic_meter.factor * T_0C / (T_0C + get_standard_temperature())
/ hour.factor, re-read from the configuration on every conversion; with
resolve this is stdFactor applied to normal_cubic_meter.factor / hour.factor. -/
def standard_cubic_meter_per_hour : ZUnit :=
  ZUnit.mk "Sm**3/h" (Param.stdFactor ((1000/22414) / 3600)) (Param.lit 0)

def standard_cubic_meter_20C_per_hour : ZUnit :=
  ZUnit.mk "Sm**3_20C/h"
    (Param.lit ((1000/22414) * (5463/20) / (5863/20) / 3600)) (Param.lit 0)

def standard_cubic_meter_60F_per_hour : ZUnit :=
  ZUnit.mk "Sm**3_60F/h"
    (Param.lit ((1000/22414) * (5463/20) / (51967/180) / 3600)) (Param.lit 0)

/-- The dynamic Sm**3/d of z_unit/unit.py lines 371-373, like Sm**3/h with
the day factor. -/
def standard_cubic_meter_per_day : ZUnit :=
  ZUnit.mk "Sm**3/d" (Param.stdFactor ((1000/22414) / 86400)) (Param.lit 0)

def standard_cubic_meter_20C_per_day : ZUnit :=
  ZUnit.mk "Sm**3_20C/d"
    (Param.lit ((1000/22414) * (5463/20) / (5863/20) / 86400)) (Param.lit 0)

def standard_cubic_meter_60F_per_day : ZUnit :=
  ZUnit.mk "Sm**3_60F/d"
    (Param.lit ((1000/22414) * (5463/20) / (51967/180) / 86400)) (Param.lit 0)

def mole_per_hour : ZUnit :=
  ZUnit.mk "mol/h" (Param.lit ((1/1000) / 3600)) (Param.lit 0)

def mole_per_minute : ZUnit :=
  ZUnit.mk "mol/min" (Param.lit ((1/1000) / 60)) (Param.lit 0)

def mole_per_second : ZUnit := ZUnit.mk "mol/s" (Param.lit (1/1000)) (Param.lit 0)

def standard_cubic_foot_per_day : ZUnit :=
  ZUnit.mk "SCFD" (Param.lit (scfFactor / 86400)) (Param.lit 0)

def kilo_standard_cubic_foot_per_hour : ZUnit :=
  ZUnit.mk "MSCFH" (Param.lit (1000 * scfFactor / 3600)) (Param.lit 0)

def kilo_standard_cubic_foot_per_day : ZUnit :=
  ZUnit.mk "MSCFD" (Param.lit (1000 * scfFactor / 86400)) (Param.lit 0)

def million_standard_cubic_foot_per_hour : ZUnit :=
  ZUnit.mk "MMSCFH" (Param.lit (1000000 * scfFactor / 3600)) (Param.lit 0)

def million_standard_cubic_foot_per_day : ZUnit :=
  ZUnit.mk "MMSCFD" (Param.lit (1000000 * scfFactor / 86400)) (Param.lit 0)

def kilogram_per_second : ZUnit := ZUnit.mk "kg/s" (Param.lit 1) (Param.lit 0)

def kilogram_per_hour : ZUnit := ZUnit.mk "kg/h" (Param.lit (1/3600)) (Param.lit 0)

def kilogram_per_minute : ZUnit := ZUnit.mk "kg/min" (Param.lit (1/60)) (Param.lit 0)

def kilogram_per_day : ZUnit := ZUnit.mk "kg/d" (Param.lit (1/86400)) (Param.lit 0)

def tonne_per_day : ZUnit := ZUnit.mk "t/d" (Param.lit (1000/86400)) (Param.lit 0)

def tonne_per_hour : ZUnit := ZUnit.mk "t/h" (Param.lit (1000/3600)) (Param.lit 0)

def tonne_per_year : ZUnit :=
  ZUnit.mk "t/yr" (Param.lit (1000/31536000)) (Param.lit 0)

def gram_per_hour : ZUnit :=
  ZUnit.mk "g/h" (Param.lit ((1/1000) / 3600)) (Param.lit 0)

def gram_per_minute : ZUnit :=
  ZUnit.mk "g/min" (Param.lit ((1/1000) / 60)) (Param.lit 0)

def gram_per_second : ZUnit := ZUnit.mk "g/s" (Param.lit (1/1000)) (Param.lit 0)

def pound_per_hour : ZUnit :=
  ZUnit.mk "lb/h" (Param.lit ((45359237/100000000) / 3600)) (Param.lit 0)

def kilo_pound_per_hour : ZUnit :=
  ZUnit.mk "klb/h" (Param.lit (1000 * (45359237/100000000) / 3600)) (Param.lit 0)

def pound_per_day : ZUnit :=
  ZUnit.mk "lb/d" (Param.lit ((45359237/100000000) / 86400)) (Param.lit 0)

def kilo_pound_per_day : ZUnit :=
  ZUnit.mk "klb/d" (Param.lit (1000 * (45359237/100000000) / 86400)) (Param.lit 0)

def million_pound_per_day : ZUnit :=
  ZUnit.mk "MMlb/d" (Param.lit (1000000 * (45359237/100000000) / 86400)) (Param.lit 0)

def cubic_meter_per_second : ZUnit := ZUnit.mk "m**3/s" (Param.lit 1) (Param.lit 0)

def cubic_meter_per_hour : ZUnit :=
  ZUnit.mk "m**3/h" (Param.lit (1/3600)) (Param.lit 0)

def cubic_meter_per_minute : ZUnit :=
  ZUnit.mk "m**3/min" (Param.lit (1/60)) (Param.lit 0)

def cubic_meter_per_day : ZUnit :=
  ZUnit.mk "m**3/d" (Param.lit (1/86400)) (Param.lit 0)

def liter_per_hour : ZUnit :=
  ZUnit.mk "L/h" (Param.lit ((1/1000) / 3600)) (Param.lit 0)

def liter_per_day : ZUnit :=
  ZUnit.mk "L/d" (Param.lit ((1/1000) / 86400)) (Param.lit 0)

def liter_per_minute : ZUnit :=
  ZUnit.mk "L/min" (Param.lit ((1/1000) / 60)) (Param.lit 0)

def liter_per_second : ZUnit := ZUnit.mk "L/s" (Param.lit (1/1000)) (Param.lit 0)

def milliliter_per_hour : ZUnit :=
  ZUnit.mk "mL/h" (Param.lit ((1/1000000) / 3600)) (Param.lit 0)

def milliliter_per_minute : ZUnit :=
  ZUnit.mk "mL/min" (Param.lit ((1/1000000) / 60)) (Param.lit 0)

def milliliter_per_second : ZUnit :=
  ZUnit.mk "mL/s" (Param.lit (1/1000000)) (Param.lit 0)

def barrel_per_day : ZUnit :=
  ZUnit.mk "bbl/d" (Param.lit (42 * (231 * (254/10000)^3) / 86400)) (Param.lit 0)

def barrel_per_hour : ZUnit :=
  ZUnit.mk "bbl/h" (Param.lit (42 * (231 * (254/10000)^3) / 3600)) (Param.lit 0)

def million_gallon_per_day : ZUnit :=
  ZUnit.mk "MMgal/d" (Param.lit (1000000 * (231 * (254/10000)^3) / 86400)) (Param.lit 0)

def US_gallon_per_minute : ZUnit :=
  ZUnit.mk "USGPM" (Param.lit ((231 * (254/10000)^3) / 60)) (Param.lit 0)

def US_gallon_per_hour : ZUnit :=
  ZUnit.mk "USGPH" (Param.lit ((231 * (254/10000)^3) / 3600)) (Param.lit 0)

def cubic_foot_per_hour : ZUnit :=
  ZUnit.mk "ft**3/h" (Param.lit ((3048/10000)^3 / 3600)) (Param.lit 0)

def cubic_foot_per_day : ZUnit :=
  ZUnit.mk "ft**3/d" (Param.lit ((3048/10000)^3 / 86400)) (Param.lit 0)

def kilojoule_per_second : ZUnit := ZUnit.mk "kJ/s" (Param.lit 1) (Param.lit 0)

def kilojoule_per_hour : ZUnit := ZUnit.mk "kJ/h" (Param.lit (1/3600)) (Param.lit 0)

def kilojoule_per_minute : ZUnit := ZUnit.mk "kJ/min" (Param.lit (1/60)) (Param.lit 0)

def megajoule_per_hour : ZUnit :=
  ZUnit.mk "MJ/h" (Param.lit (1000/3600)) (Param.lit 0)

def gigajoule_per_hour : ZUnit :=
  ZUnit.mk "GJ/h" (Param.lit (1000000/3600)) (Param.lit 0)

def kilowatt : ZUnit := ZUnit.mk "kW" (Param.lit 1) (Param.lit 0)

def megawatt : ZUnit := ZUnit.mk "MW" (Param.lit 1000) (Param.lit 0)

def kilocalorie_per_hour : ZUnit :=
  ZUnit.mk "kcal/h" (Param.lit (1000 * (4184/1000000) / 3600)) (Param.lit 0)

def kilocalorie_per_minute : ZUnit :=
  ZUnit.mk "kcal/min" (Param.lit (1000 * (4184/1000000) / 60)) (Param.lit 0)

def kilocalorie_per_second : ZUnit :=
  ZUnit.mk "kcal/s" (Param.lit (1000 * (4184/1000000))) (Param.lit 0)

def million_kilocalorie_per_hour : ZUnit :=
  ZUnit.mk "MMkcal/h"
    (Param.lit (1000000 * (1000 * (4184/1000000)) / 3600)) (Param.lit 0)

def calorie_per_hour : ZUnit :=
  ZUnit.mk "cal/h" (Param.lit ((4184/1000000) / 3600)) (Param.lit 0)

def calorie_per_minute : ZUnit :=
  ZUnit.mk "cal/min" (Param.lit ((4184/1000000) / 60)) (Param.lit 0)

def calorie_per_second : ZUnit :=
  ZUnit.mk "cal/s" (Param.lit (4184/1000000)) (Param.lit 0)

def Btu_per_hour : ZUnit :=
  ZUnit.mk "Btu/h" (Param.lit ((1055056/1000000) / 3600)) (Param.lit 0)

def million_Btu_per_hour : ZUnit :=
  ZUnit.mk "MMBtu/h"
    (Param.lit (1000000 * (1055056/1000000) / 3600)) (Param.lit 0)

def million_Btu_per_day : ZUnit :=
  ZUnit.mk "MMBtu/d"
    (Param.lit (1000000 * (1055056/1000000) / 86400)) (Param.lit 0)

def horse_power : ZUnit := ZUnit.mk "hp" (Param.lit (745699/1000000)) (Param.lit 0)

end zu

namespace zu

def kilomole_per_cubic_meter : ZUnit :=
  ZUnit.mk "kmol/m**3" (Param.lit 1) (Param.lit 0)

def mole_per_liter : ZUnit :=
  ZUnit.mk "mol/L" (Param.lit ((1/1000) / (1/1000))) (Param.lit 0)

def mole_per_cubic_centimeter : ZUnit :=
  ZUnit.mk "mol/cm**3" (Param.lit ((1/1000) / (1/1000000))) (Param.lit 0)

def mole_per_milliliter : ZUnit :=
  ZUnit.mk "mol/mL" (Param.lit ((1/1000) / (1/1000000))) (Param.lit 0)

def kilojoule_per_mole_celsius : ZUnit :=
  ZUnit.mk "kJ/(mol*C)" (Param.lit (1 / (1/1000))) (Param.lit 0)

def kilojoule_per_mole_kelvin : ZUnit :=
  ZUnit.mk "kJ/(mol*K)" (Param.lit (1 / (1/1000))) (Param.lit 0)

def kilojoule_per_kilomole_celsius : ZUnit :=
  ZUnit.mk "kJ/(kmol*C)" (Param.lit 1) (Param.lit 0)

def kilojoule_per_kilomole_kelvin : ZUnit :=
  ZUnit.mk "kJ/(kmol*K)" (Param.lit 1) (Param.lit 0)

def joule_per_mole_celsius : ZUnit :=
  ZUnit.mk "J/(mol*C)" (Param.lit ((1/1000) / (1/1000))) (Param.lit 0)

def joule_per_mole_kelvin : ZUnit :=
  ZUnit.mk "J/(mol*K)" (Param.lit ((1/1000) / (1/1000))) (Param.lit 0)

def joule_per_kilomole_celsius : ZUnit :=
  ZUnit.mk "J/(kmol*C)" (Param.lit (1/1000)) (Param.lit 0)

def joule_per_kilomole_kelvin : ZUnit :=
  ZUnit.mk "J/(kmol*K)" (Param.lit (1/1000)) (Param.lit 0)

def kilocalorie_per_mole_celsius : ZUnit :=
  ZUnit.mk "kcal/(mol*C)" (Param.lit (1000 * (4184/1000000) / (1/1000))) (Param.lit 0)

def kilocalorie_per_mole_kelvin : ZUnit :=
  ZUnit.mk "kcal/(mol*K)" (Param.lit (1000 * (4184/1000000) / (1/1000))) (Param.lit 0)

def kilocalorie_per_kilomole_celsius : ZUnit :=
  ZUnit.mk "kcal/(kmol*C)" (Param.lit (1000 * (4184/1000000))) (Param.lit 0)

def kilocalorie_per_kilomole_kelvin : ZUnit :=
  ZUnit.mk "kcal/(kmol*K)" (Param.lit (1000 * (4184/1000000))) (Param.lit 0)

def calorie_per_mole_celsius : ZUnit :=
  ZUnit.mk "cal/(mol*C)" (Param.lit ((4184/1000000) / (1/1000))) (Param.lit 0)

def calorie_per_mole_kelvin : ZUnit :=
  ZUnit.mk "cal/(mol*K)" (Param.lit ((4184/1000000) / (1/1000))) (Param.lit 0)

def calorie_per_kilomole_celsius : ZUnit :=
  ZUnit.mk "cal/(kmol*C)" (Param.lit (4184/1000000)) (Param.lit 0)

def calorie_per_kilomole_kelvin : ZUnit :=
  ZUnit.mk "cal/(kmol*K)" (Param.lit (4184/1000000)) (Param.lit 0)

def watt_per_meter_kelvin : ZUnit :=
  ZUnit.mk "W/(m*K)" (Param.lit 1) (Param.lit 0)

def Btu_per_hour_foot_fahrenheit : ZUnit :=
  ZUnit.mk "Btu/(h*ft*F)"
    (Param.lit (1000 * (1055056/1000000) / (3600 * (3048/10000) * (5/9))))
    (Param.lit 0)

def kilocalorie_per_meter_hour_celsius : ZUnit :=
  ZUnit.mk "kcal/(m*h*C)"
    (Param.lit (1000 * (1000 * (4184/1000000)) / 3600)) (Param.lit 0)

def calorie_per_centimeter_second_celsius : ZUnit :=
  ZUnit.mk "cal/(cm*s*C)"
    (Param.lit (1000 * (4184/1000000) / (1/100))) (Param.lit 0)

def centipoise : ZUnit := ZUnit.mk "cP" (Param.lit 1) (Param.lit 0)

def millipoise : ZUnit := ZUnit.mk "mP" (Param.lit (1/10)) (Param.lit 0)

def micropoise : ZUnit :=
  ZUnit.mk "microP" (Param.lit ((1/1000) * (1/10))) (Param.lit 0)

def poise : ZUnit := ZUnit.mk "P" (Param.lit 100) (Param.lit 0)

def pascal_second : ZUnit := ZUnit.mk "Pa-s" (Param.lit 1000) (Param.lit 0)

def pound_force_second_per_square_foot : ZUnit :=
  ZUnit.mk "lbf*s/ft**2"
    (Param.lit (1000 * (constantG * (45359237/100000000)) / ((3048/10000)^2)))
    (Param.lit 0)

def pound_mass_per_foot_second : ZUnit :=
  ZUnit.mk "lbm/(ft*s)"
    (Param.lit (1000 * (45359237/100000000) / (3048/10000))) (Param.lit 0)

def pound_mass_per_foot_hour : ZUnit :=
  ZUnit.mk "lbm/(ft*h)"
    (Param.lit (1000 * (45359237/100000000) / ((3048/10000) * 3600))) (Param.lit 0)

def dyne_per_centimeter : ZUnit := ZUnit.mk "dyne/cm" (Param.lit 1) (Param.lit 0)

def dyn_per_centimeter : ZUnit := ZUnit.mk "dyn/cm" (Param.lit 1) (Param.lit 0)

def pound_force_per_foot : ZUnit :=
  ZUnit.mk "lbf/ft"
    (Param.lit (1000 * (constantG * (45359237/100000000)) / (3048/10000)))
    (Param.lit 0)

def kilojoule_per_gram_celsius : ZUnit :=
  ZUnit.mk "kJ/(g*C)" (Param.lit (1 / (1/1000))) (Param.lit 0)

def kilojoule_per_gram_kelvin : ZUnit :=
  ZUnit.mk "kJ/(g*K)" (Param.lit (1 / (1/1000))) (Param.lit 0)

def kilojoule_per_kilogram_celsius : ZUnit :=
  ZUnit.mk "kJ/(kg*C)" (Param.lit 1) (Param.lit 0)

def kilojoule_per_kilogram_kelvin : ZUnit :=
  ZUnit.mk "kJ/(kg*K)" (Param.lit 1) (Param.lit 0)

def joule_per_gram_celsius : ZUnit :=
  ZUnit.mk "J/(g*C)" (Param.lit ((1/1000) / (1/1000))) (Param.lit 0)

def joule_per_gram_kelvin : ZUnit :=
  ZUnit.mk "J/(g*K)" (Param.lit ((1/1000) / (1/1000))) (Param.lit 0)

def joule_per_kilogram_celsius : ZUnit :=
  ZUnit.mk "J/(kg*C)" (Param.lit (1/1000)) (Param.lit 0)

def joule_per_kilogram_kelvin : ZUnit :=
  ZUnit.mk "J/(kg*K)" (Param.lit (1/1000)) (Param.lit 0)

def kilocalorie_per_gram_celsius : ZUnit :=
  ZUnit.mk "kcal/(g*C)" (Param.lit (1000 * (4184/1000000) / (1/1000))) (Param.lit 0)

def kilocalorie_per_gram_kelvin : ZUnit :=
  ZUnit.mk "kcal/(g*K)" (Param.lit (1000 * (4184/1000000) / (1/1000))) (Param.lit 0)

def kilocalorie_per_kilogram_celsius : ZUnit :=
  ZUnit.mk "kcal/(kg*C)" (Param.lit (1000 * (4184/1000000))) (Param.lit 0)

def kilocalorie_per_kilogram_kelvin : ZUnit :=
  ZUnit.mk "kcal/(kg*K)" (Param.lit (1000 * (4184/1000000))) (Param.lit 0)

def calorie_per_gram_celsius : ZUnit :=
  ZUnit.mk "cal/(g*C)" (Param.lit ((4184/1000000) / (1/1000))) (Param.lit 0)

def calorie_per_gram_kelvin : ZUnit :=
  ZUnit.mk "cal/(g*K)" (Param.lit ((4184/1000000) / (1/1000))) (Param.lit 0)

def calorie_per_kilogram_celsius : ZUnit :=
  ZUnit.mk "cal/(kg*C)" (Param.lit (4184/1000000)) (Param.lit 0)

def calorie_per_kilogram_kelvin : ZUnit :=
  ZUnit.mk "cal/(kg*K)" (Param.lit (4184/1000000)) (Param.lit 0)

def kilogram_per_cubic_meter : ZUnit :=
  ZUnit.mk "kg/m**3" (Param.lit 1) (Param.lit 0)

def gram_per_liter : ZUnit :=
  ZUnit.mk "g/L" (Param.lit ((1/1000) / (1/1000))) (Param.lit 0)

def gram_per_cubic_centimeter : ZUnit :=
  ZUnit.mk "g/cm**3" (Param.lit ((1/1000) / (1/1000000))) (Param.lit 0)

def gram_per_milliliter : ZUnit :=
  ZUnit.mk "g/mL" (Param.lit ((1/1000) / (1/1000000))) (Param.lit 0)

def kilojoule_per_mole : ZUnit :=
  ZUnit.mk "kJ/mol" (Param.lit (1 / (1/1000))) (Param.lit 0)

def kilojoule_per_kilomole : ZUnit := ZUnit.mk "kJ/kmol" (Param.lit 1) (Param.lit 0)

def joule_per_mole : ZUnit :=
  ZUnit.mk "J/mol" (Param.lit ((1/1000) / (1/1000))) (Param.lit 0)

def joule_per_kilomole : ZUnit := ZUnit.mk "J/kmol" (Param.lit (1/1000)) (Param.lit 0)

def megajoule_per_kilomole : ZUnit :=
  ZUnit.mk "MJ/kmol" (Param.lit 1000) (Param.lit 0)

def kilocalorie_per_mole : ZUnit :=
  ZUnit.mk "kcal/mol" (Param.lit (1000 * (4184/1000000) / (1/1000))) (Param.lit 0)

def kilocalorie_per_kilomole : ZUnit :=
  ZUnit.mk "kcal/kmol" (Param.lit (1000 * (4184/1000000))) (Param.lit 0)

def calorie_per_mole : ZUnit :=
  ZUnit.mk "cal/mol" (Param.lit ((4184/1000000) / (1/1000))) (Param.lit 0)

def calorie_per_kilomole : ZUnit :=
  ZUnit.mk "cal/kmol" (Param.lit (4184/1000000)) (Param.lit 0)

def cubic_meter_per_mole : ZUnit :=
  ZUnit.mk "m**3/mol" (Param.lit (1 / (1/1000))) (Param.lit 0)

def cubic_meter_per_kilomole : ZUnit :=
  ZUnit.mk "m**3/kmol" (Param.lit 1) (Param.lit 0)

def liter_per_mole : ZUnit :=
  ZUnit.mk "L/mol" (Param.lit ((1/1000) / (1/1000))) (Param.lit 0)

def cubic_centimeter_per_mole : ZUnit :=
  ZUnit.mk "cm**3/mol" (Param.lit ((1/1000000) / (1/1000))) (Param.lit 0)

def milliliter_per_mole : ZUnit :=
  ZUnit.mk "mL/mol" (Param.lit ((1/1000000) / (1/1000))) (Param.lit 0)

def kilojoule_per_gram : ZUnit :=
  ZUnit.mk "kJ/g" (Param.lit (1 / (1/1000))) (Param.lit 0)

def kilojoule_per_kilogram : ZUnit := ZUnit.mk "kJ/kg" (Param.lit 1) (Param.lit 0)

def joule_per_gram : ZUnit :=
  ZUnit.mk "J/g" (Param.lit ((1/1000) / (1/1000))) (Param.lit 0)

def joule_per_kilogram : ZUnit := ZUnit.mk "J/kg" (Param.lit (1/1000)) (Param.lit 0)

def megajoule_per_kilogram : ZUnit :=
  ZUnit.mk "MJ/kg" (Param.lit 1000) (Param.lit 0)

def kilocalorie_per_gram : ZUnit :=
  ZUnit.mk "kcal/g" (Param.lit (1000 * (4184/1000000) / (1/1000))) (Param.lit 0)

def kilocalorie_per_kilogram : ZUnit :=
  ZUnit.mk "kcal/kg" (Param.lit (1000 * (4184/1000000))) (Param.lit 0)

def calorie_per_gram : ZUnit :=
  ZUnit.mk "cal/g" (Param.lit ((4184/1000000) / (1/1000))) (Param.lit 0)

def calorie_per_kilogram : ZUnit :=
  ZUnit.mk "cal/kg" (Param.lit (4184/1000000)) (Param.lit 0)

def Btu_per_pound : ZUnit :=
  ZUnit.mk "Btu/lb"
    (Param.lit ((1055056/1000000) / (45359237/100000000))) (Param.lit 0)

def sgf_standard_cubic_meter_per_hour : ZUnit :=
  ZUnit.mk "Sm**3/h" (Param.lit (1/3600)) (Param.lit 0)

def sgf_standard_cubic_meter_per_day : ZUnit :=
  ZUnit.mk "Sm**3/d" (Param.lit (1/86400)) (Param.lit 0)

def sgf_standard_cubic_meter_per_minute : ZUnit :=
  ZUnit.mk "Sm**3/min" (Param.lit (1/60)) (Param.lit 0)

def sgf_standard_cubic_meter_per_second : ZUnit :=
  ZUnit.mk "Sm**3/s" (Param.lit 1) (Param.lit 0)

def centistokes : ZUnit := ZUnit.mk "cSt" (Param.lit 1) (Param.lit 0)

def dimensionlessUnit : ZUnit := ZUnit.mk "" (Param.lit 1) (Param.lit 0)

def percent : ZUnit := ZUnit.mk "%" (Param.lit (1/100)) (Param.lit 0)

def parts_per_million : ZUnit := ZUnit.mk "ppm" (Param.lit (1/1000000)) (Param.lit 0)

end zu

namespace zu

def length : UnitRegistry :=
  UnitRegistry.mk
    [meter, kilometer, decimeter, centimeter, millimeter, micrometer, foot, inch]
    meter

def area : UnitRegistry :=
  UnitRegistry.mk
    [square_meter, square_kilometer, square_decimeter, square_centimeter,
     square_millimeter, square_micrometer, square_foot, square_inch]
    square_meter

def volume : UnitRegistry :=
  UnitRegistry.mk
    [cubic_meter, cubic_centimeter, cubic_millimeter, millimeter, liter,
     milliliter, cubic_foot, cubic_inch, gallon, barrel]
    cubic_meter

def time : UnitRegistry :=
  UnitRegistry.mk [second, minute, hour, day, week, year, month] second

def mass : UnitRegistry :=
  UnitRegistry.mk [kilogram, gram, tonne, pound] kilogram

def force : UnitRegistry :=
  UnitRegistry.mk
    [newton, kilogram_meter_per_second_squared, kilo_newton, dyne,
     kilogram_force, tonne_force, pound_force]
    newton

def substance : UnitRegistry :=
  UnitRegistry.mk
    [kilomole, mole, normal_cubic_meter, standard_cubic_meter,
     standard_cubic_meter_20C, standard_cubic_meter_60F, standard_cubic_foot,
     kilo_standard_cubic_foot, million_standard_cubic_foot]
    kilomole

def energy : UnitRegistry :=
  UnitRegistry.mk
    [kilojoule, joule, megajoule, gigajoule, kilowatt_hour, kilowatt_year,
     calorie, kilocalorie, megacalorie, gigacalorie, million_kilocalorie,
     british_thermal_unit, million_british_thermal_unit, pound_force_foot]
    kilojoule

def velocity : UnitRegistry :=
  UnitRegistry.mk
    [meter_per_second, meter_per_minute, meter_per_hour, kilometer_per_hour,
     centimeter_per_second, foot_per_second, foot_per_minute, foot_per_hour]
    meter_per_second

def temperature : UnitRegistry :=
  UnitRegistry.mk [celsius, kelvin, fahrenheit, rankine] celsius

def delta_temperature : UnitRegistry :=
  UnitRegistry.mk [delta_celsius, delta_kelvin, delta_rankine, delta_fahrenheit]
    delta_celsius

def pressure : UnitRegistry :=
  UnitRegistry.mk
    [kilopascal, megapascal, bar, millibar, pascal, atm,
     kg_force_per_square_centimeter, psi, pound_force_per_square_foot,
     torr, mm_Hg, inch_Hg, inch_Hg_60F,
     kilopascal_gauge, megapascal_gauge, bar_gauge, millibar_gauge,
     kg_force_per_square_centimeter_gauge, psi_gauge,
     pound_force_per_square_foot_gauge, torr_gauge, mm_Hg_gauge,
     inch_Hg_gauge, inch_Hg_60F_gauge]
    pascal

def molar_flow : UnitRegistry :=
  UnitRegistry.mk
    [kilomole_per_second, kilomole_per_hour, kilomole_per_minute,
     normal_cubic_meter_per_hour, normal_cubic_meter_per_day,
     standard_cubic_meter_per_hour, standard_cubic_meter_20C_per_hour,
     standard_cubic_meter_60F_per_hour, standard_cubic_meter_per_day,
     standard_cubic_meter_20C_per_day, standard_cubic_meter_60F_per_day,
     mole_per_hour, mole_per_minute, mole_per_second,
     standard_cubic_foot_per_day, kilo_standard_cubic_foot_per_hour,
     kilo_standard_cubic_foot_per_day, million_standard_cubic_foot_per_hour,
     million_standard_cubic_foot_per_day]
    kilomole_per_second

def mass_flow : UnitRegistry :=
  UnitRegistry.mk
    [kilogram_per_hour, kilogram_per_minute, kilogram_per_second,
     kilogram_per_day, tonne_per_day, tonne_per_hour, tonne_per_year,
     gram_per_hour, gram_per_minute, gram_per_second, pound_per_hour,
     pound_per_day, kilo_pound_per_hour, kilo_pound_per_day,
     million_pound_per_day]
    kilogram_per_second

def volume_flow : UnitRegistry :=
  UnitRegistry.mk
    [cubic_meter_per_hour, cubic_meter_per_minute, cubic_meter_per_second,
     cubic_meter_per_day, liter_per_hour, liter_per_day, liter_per_minute,
     liter_per_second, milliliter_per_hour, milliliter_per_minute,
     milliliter_per_second, barrel_per_day, barrel_per_hour,
     million_gallon_per_day, US_gallon_per_minute, US_gallon_per_hour,
     cubic_foot_per_hour, cubic_foot_per_day]
    cubic_meter_per_second

def energy_flow : UnitRegistry :=
  UnitRegistry.mk
    [kilojoule_per_hour, kilojoule_per_minute, kilojoule_per_second,
     megajoule_per_hour, gigajoule_per_hour, kilowatt, megawatt,
     kilocalorie_per_hour, kilocalorie_per_minute, kilocalorie_per_second,
     million_kilocalorie_per_hour, calorie_per_hour, calorie_per_minute,
     calorie_per_second, Btu_per_hour, million_Btu_per_hour,
     million_Btu_per_day, horse_power]
    kilojoule_per_second

def heat_flow : UnitRegistry := energy_flow

def molar_density : UnitRegistry :=
  UnitRegistry.mk
    [kilomole_per_cubic_meter, mole_per_liter, mole_per_cubic_centimeter,
     mole_per_milliliter]
    kilomole_per_cubic_meter

def molar_heat_capacity : UnitRegistry :=
  UnitRegistry.mk
    [kilojoule_per_mole_celsius, kilojoule_per_mole_kelvin,
     kilojoule_per_kilomole_celsius, kilojoule_per_kilomole_kelvin,
     joule_per_mole_celsius, joule_per_mole_kelvin,
     joule_per_kilomole_celsius, joule_per_kilomole_kelvin,
     kilocalorie_per_mole_celsius, kilocalorie_per_mole_kelvin,
     kilocalorie_per_kilomole_celsius, kilocalorie_per_kilomole_kelvin,
     calorie_per_mole_celsius, calorie_per_mole_kelvin,
     calorie_per_kilomole_celsius, calorie_per_kilomole_kelvin]
    kilojoule_per_kilomole_celsius

def molar_entropy : UnitRegistry := molar_heat_capacity

def thermal_conductivity : UnitRegistry :=
  UnitRegistry.mk
    [watt_per_meter_kelvin, Btu_per_hour_foot_fahrenheit,
     kilocalorie_per_meter_hour_celsius, calorie_per_centimeter_second_celsius]
    watt_per_meter_kelvin

def viscosity : UnitRegistry :=
  UnitRegistry.mk
    [centipoise, millipoise, micropoise, poise, pascal_second,
     pound_force_second_per_square_foot, pound_mass_per_foot_second,
     pound_mass_per_foot_hour]
    centipoise

def surface_tension : UnitRegistry :=
  UnitRegistry.mk
    [dyne_per_centimeter, dyn_per_centimeter, pound_force_per_foot]
    dyne_per_centimeter

def mass_heat_capacity : UnitRegistry :=
  UnitRegistry.mk
    [kilojoule_per_gram_celsius, kilojoule_per_gram_kelvin,
     kilojoule_per_kilogram_celsius, kilojoule_per_kilogram_kelvin,
     joule_per_gram_celsius, joule_per_gram_kelvin,
     joule_per_kilogram_celsius, joule_per_kilogram_kelvin,
     kilocalorie_per_gram_celsius, kilocalorie_per_gram_kelvin,
     kilocalorie_per_kilogram_celsius, kilocalorie_per_kilogram_kelvin,
     calorie_per_gram_celsius, calorie_per_gram_kelvin,
     calorie_per_kilogram_celsius, calorie_per_kilogram_kelvin]
    kilojoule_per_kilogram_celsius

def mass_density : UnitRegistry :=
  UnitRegistry.mk
    [kilogram_per_cubic_meter, gram_per_liter, gram_per_cubic_centimeter,
     gram_per_milliliter]
    kilogram_per_cubic_meter

def standard_gas_flow : UnitRegistry :=
  UnitRegistry.mk
    [sgf_standard_cubic_meter_per_hour, sgf_standard_cubic_meter_per_day,
     sgf_standard_cubic_meter_per_minute, sgf_standard_cubic_meter_per_second]
    sgf_standard_cubic_meter_per_second

def molar_enthalpy : UnitRegistry :=
  UnitRegistry.mk
    [kilojoule_per_mole, kilojoule_per_kilomole, joule_per_mole,
     joule_per_kilomole, megajoule_per_kilomole, kilocalorie_per_mole,
     kilocalorie_per_kilomole, calorie_per_mole, calorie_per_kilomole]
    kilojoule_per_kilomole

def molar_heat : UnitRegistry := molar_enthalpy

def molar_volume : UnitRegistry :=
  UnitRegistry.mk
    [cubic_meter_per_mole, cubic_meter_per_kilomole, liter_per_mole,
     cubic_centimeter_per_mole, milliliter_per_mole]
    cubic_meter_per_kilomole

def mass_entropy : UnitRegistry := mass_heat_capacity

def mass_heat : UnitRegistry :=
  UnitRegistry.mk
    [kilojoule_per_gram, kilojoule_per_kilogram, joule_per_gram,
     joule_per_kilogram, megajoule_per_kilogram, kilocalorie_per_gram,
     kilocalorie_per_kilogram, calorie_per_gram, calorie_per_kilogram,
     Btu_per_pound]
    kilojoule_per_kilogram

def kinematic_viscosity : UnitRegistry :=
  UnitRegistry.mk [centistokes] centistokes

def fraction : UnitRegistry :=
  UnitRegistry.mk [dimensionlessUnit, percent, parts_per_million]
    dimensionlessUnit

def dimensionless : UnitRegistry :=
  UnitRegistry.mk [dimensionlessUnit] dimensionlessUnit

end zu

/-- The quantity_registry mapping of z_unit/ the package init module: each
concrete Quantity subclass paired with the symbol set of its registry, in
class definition order.  Modelled from the spec: the quantity module of
z_unit is not under src/; the class list and its order are taken from the
identical concrete-kind list of z_units/quantity.py, and each kind is bound
to the registry of the same snake-case name in z_unit/unit_registry.py. -/
def quantity_registry : List (String × UnitRegistry) :=
  [("Length", zu.length), ("Area", zu.area), ("Volume", zu.volume),
   ("Time", zu.time), ("Mass", zu.mass), ("Force", zu.force),
   ("Substance", zu.substance), ("Energy", zu.energy),
   ("Velocity", zu.velocity), ("Temperature", zu.temperature),
   ("DeltaTemperature", zu.delta_temperature), ("Pressure", zu.pressure),
   ("VolumeFlow", zu.volume_flow), ("MassDensity", zu.mass_density),
   ("HeatFlow", zu.heat_flow), ("MolarFlow", zu.molar_flow),
   ("MassFlow", zu.mass_flow), ("MolarDensity", zu.molar_density),
   ("MolarHeatCapacity", zu.molar_heat_capacity),
   ("MolarEntropy", zu.molar_entropy), ("MolarHeat", zu.molar_heat),
   ("ThermalConductivity", zu.thermal_conductivity),
   ("Viscosity", zu.viscosity), ("SurfaceTension", zu.surface_tension),
   ("MassHeatCapacity", zu.mass_heat_capacity),
   ("MassEntropy", zu.mass_entropy), ("MassHeat", zu.mass_heat),
   ("StandardGasFlow", zu.standard_gas_flow),
   ("KinematicViscosity", zu.kinematic_viscosity),
   ("MolarVolume", zu.molar_volume), ("Fraction", zu.fraction),
   ("Dimensionless", zu.dimensionless)]

/-- The body Q(value, from_unit).to(to_unit) of the convert function of the
z_unit package init module: convert through the matched kind k with bound
registry r. -/
def convertVia (c : Config) (value : ℚ) (k : String) (r : UnitRegistry)
    (fromU toU : String) : Except String (Option Quantity) :=
  match Quantity.make k r (Option.some value) (Option.some fromU) with
  | Except.error e => Except.error e
  | Except.ok q => q.to c toU

/-- The scanning loop of the convert function of the z_unit package init
module: for each kind in iteration order, if both symbols belong to the
symbol set of its registry, convert through that kind; when the loop
finishes without a match, raise ValueError. -/
def convertGo (c : Config) (value : ℚ) (fromU toU : String) :
    List (String × UnitRegistry) → Except String (Option Quantity)
  | [] => Except.error "cannot convert"
  | (k, r) :: rest =>
    if fromU ∈ r.symbols ∧ toU ∈ r.symbols then convertVia c value k r fromU toU
    else convertGo c value fromU toU rest

/-- The conversion of Claim C4 through the z_unit catalog, whose Sm**3/h
factor is the dynamic lambda of z_unit/unit.py lines 365-367:
MolarFlow(1, "Nm3/h").to("Sm3/h") at configuration c. -/
def zuNm3hToSm3h (c : Config) : Except String (Option Quantity) :=
  match Quantity.make "MolarFlow" zu.molar_flow (Option.some 1) (Option.some "Nm3/h") with
  | Except.error e => Except.error e
  | Except.ok q => q.to c "Sm3/h"

/-- The free function convert(value, from_unit, to_unit) of the z_unit
package init module, scanning quantity_registry. -/
def convert (c : Config) (value : ℚ) (fromU toU : String) :
    Except String (Option Quantity) :=
  convertGo c value fromU toU quantity_registry

/-- Claim C1: for a quantity with a present value and a target symbol that
resolves in the bound registry, to returns a quantity of the same kind whose
unit is the resolved target and whose value is
target.from_base_unit(unit.to_base_unit(value)); with an absent value, to
returns None instead of computing. -/
theorem quantity_to_spec (c : Config) (q : Quantity) (s : String) :
    (∀ v t, q.value = Option.some v → q.reg.get_unit s = Except.ok t →
      q.to c s = Except.ok (Option.some (Quantity.mk q.kind q.reg
        (Option.some (t.from_base_unit c (q.unit.to_base_unit c v))) t))) ∧
    (q.value = Option.none → q.to c s = Except.ok Option.none) := by
  constructor
  · intro v t hv ht
    simp [Quantity.to, hv, ht, Quantity.make, Except.map]
  · intro hv
    simp [Quantity.to, hv]

/-- Witness for Claim C1: Length(1) converted to km through the z_units
length registry, and Length(None) propagating None. -/
theorem quantity_to_spec_witness :
    (Quantity.mk "Length" zus.length (Option.some 1) zus.meter).value =
        Option.some 1 ∧
    zus.length.get_unit "km" = Except.ok zus.kilometer ∧
    (Quantity.mk "Length" zus.length (Option.some 1) zus.meter).to
        defaultConfig "km" =
      Except.ok (Option.some (Quantity.mk "Length" zus.length
        (Option.some (zus.kilometer.from_base_unit defaultConfig
          (zus.meter.to_base_unit defaultConfig 1))) zus.kilometer)) ∧
    (Quantity.mk "Length" zus.length Option.none zus.meter).to
        defaultConfig "km" = Except.ok Option.none :=
  And.intro rfl (And.intro rfl (And.intro
    ((quantity_to_spec defaultConfig
      (Quantity.mk "Length" zus.length (Option.some 1) zus.meter) "km").1
      1 zus.kilometer rfl rfl)
    ((quantity_to_spec defaultConfig
      (Quantity.mk "Length" zus.length Option.none zus.meter) "km").2 rfl)))

/-- Claim C3: for two quantities of the same concrete kind whose base-value
projections are x and y, equality holds exactly when x = y, the comparison
a < b (reflected __gt__) holds exactly when x < y, and a >= b holds exactly
when y <= x, whatever input units the two were built with; for two
quantities of different concrete kinds, equality is the boolean False and
no error is raised. -/
theorem quantity_compare_spec (c : Config) (a b : Quantity) :
    (∀ x y, a.kind = b.kind → a.toBaseValue c = Except.ok x →
      b.toBaseValue c = Except.ok y →
      a.eq c b = Except.ok (decide (x = y)) ∧
      Quantity.lt c a b = Except.ok (Option.some (decide (x < y))) ∧
      a.ge c b = Except.ok (Option.some (decide (y ≤ x)))) ∧
    (a.kind ≠ b.kind → a.eq c b = Except.ok false) := by
  constructor
  · intro x y hk ha hb
    refine And.intro ?_ (And.intro ?_ ?_)
    · simp [Quantity.eq, hk, ha, hb]
    · simp [Quantity.lt, Quantity.gt, hk, ha, hb]
    · simp [Quantity.ge, hk, ha, hb]
  · intro hk
    simp [Quantity.eq, hk]

/-- Witness for Claim C3: Length(200, cm) and Length(1000, mm) reduce to base
values 2 and 1, so they compare as 200 cm >= 1000 mm (the claim example);
and a Length never equals a Mass. -/
theorem quantity_compare_spec_witness :
    (Quantity.mk "Length" zus.length (Option.some 200) zus.centimeter).toBaseValue
        defaultConfig = Except.ok 2 ∧
    (Quantity.mk "Length" zus.length (Option.some 1000) zus.millimeter).toBaseValue
        defaultConfig = Except.ok 1 ∧
    Quantity.ge defaultConfig
        (Quantity.mk "Length" zus.length (Option.some 200) zus.centimeter)
        (Quantity.mk "Length" zus.length (Option.some 1000) zus.millimeter) =
      Except.ok (Option.some true) ∧
    Quantity.eq defaultConfig
        (Quantity.mk "Length" zus.length (Option.some 1) zus.meter)
        (Quantity.mk "Mass" zus.mass (Option.some 1) zus.kilogram) =
      Except.ok false := by
  have e1 : zus.meter.from_base_unit defaultConfig
      (zus.centimeter.to_base_unit defaultConfig 200) = 2 := by
    norm_num [ZUnit.from_base_unit, ZUnit.to_base_unit, Param.resolve,
      zus.meter, zus.centimeter]
  have e2 : zus.meter.from_base_unit defaultConfig
      (zus.millimeter.to_base_unit defaultConfig 1000) = 1 := by
    norm_num [ZUnit.from_base_unit, ZUnit.to_base_unit, Param.resolve,
      zus.meter, zus.millimeter]
  have h1 : (Quantity.mk "Length" zus.length (Option.some 200)
      zus.centimeter).toBaseValue defaultConfig = Except.ok 2 := by
    rw [show (Quantity.mk "Length" zus.length (Option.some 200)
      zus.centimeter).toBaseValue defaultConfig =
      Except.ok (zus.meter.from_base_unit defaultConfig
        (zus.centimeter.to_base_unit defaultConfig 200)) from rfl, e1]
  have h2 : (Quantity.mk "Length" zus.length (Option.some 1000)
      zus.millimeter).toBaseValue defaultConfig = Except.ok 1 := by
    rw [show (Quantity.mk "Length" zus.length (Option.some 1000)
      zus.millimeter).toBaseValue defaultConfig =
      Except.ok (zus.meter.from_base_unit defaultConfig
        (zus.millimeter.to_base_unit defaultConfig 1000)) from rfl, e2]
  refine And.intro h1 (And.intro h2 (And.intro ?_ ?_))
  · have h := ((quantity_compare_spec defaultConfig
      (Quantity.mk "Length" zus.length (Option.some 200) zus.centimeter)
      (Quantity.mk "Length" zus.length (Option.some 1000) zus.millimeter)).1
      2 1 rfl h1 h2).2.2
    rw [h, decide_eq_true (by norm_num : (1:ℚ) ≤ 2)]
  · exact (quantity_compare_spec defaultConfig
      (Quantity.mk "Length" zus.length (Option.some 1) zus.meter)
      (Quantity.mk "Mass" zus.mass (Option.some 1) zus.kilogram)).2
      (by decide)

/-- Claim C9: multiplying a quantity with a present value by a number (whose
current unit re-resolves to itself, as it always does in the catalog) gives a
fresh quantity of the same kind and the same unit with value * number, on
both sides of the multiplication, so q * n and n * q coincide; multiplying
two quantities together is the unsupported branch. -/
theorem quantity_scalar_mul_spec (q : Quantity) (n : ℚ) :
    (∀ v, q.value = Option.some v →
      q.reg.get_unit q.unit.symbol = Except.ok q.unit →
      q.mul (MulOperand.num n) = Option.some (Except.ok
        (Quantity.mk q.kind q.reg (Option.some (v * n)) q.unit)) ∧
      Quantity.rmul (MulOperand.num n) q = q.mul (MulOperand.num n)) ∧
    (∀ p, q.mul (MulOperand.quant p) = Option.none) := by
  constructor
  · intro v hv hu
    constructor
    · simp [Quantity.mul, hv, hu, Except.map]
    · rfl
  · intro p
    rfl

/-- Witness for Claim C9: Length(2, m) times 3 on both sides, and the
unsupported quantity-times-quantity branch. -/
theorem quantity_scalar_mul_spec_witness :
    (Quantity.mk "Length" zus.length (Option.some 2) zus.meter).mul
        (MulOperand.num 3) =
      Option.some (Except.ok (Quantity.mk "Length" zus.length
        (Option.some (2 * 3)) zus.meter)) ∧
    Quantity.rmul (MulOperand.num 3)
        (Quantity.mk "Length" zus.length (Option.some 2) zus.meter) =
      (Quantity.mk "Length" zus.length (Option.some 2) zus.meter).mul
        (MulOperand.num 3) ∧
    (Quantity.mk "Length" zus.length (Option.some 2) zus.meter).mul
        (MulOperand.quant (Quantity.mk "Length" zus.length (Option.some 2)
          zus.meter)) = Option.none := by
  have h := (quantity_scalar_mul_spec
    (Quantity.mk "Length" zus.length (Option.some 2) zus.meter) 3).1 2 rfl rfl
  exact And.intro h.1 (And.intro h.2
    ((quantity_scalar_mul_spec
      (Quantity.mk "Length" zus.length (Option.some 2) zus.meter) 3).2 _))

/-- Claim C10: the ordering comparison methods return Python None for
operands of a different concrete kind, and so do the reflected forms of the
strict and non-strict comparisons, while equality returns the boolean False;
none of them raises. -/
theorem cross_kind_comparison_spec (c : Config) (a b : Quantity)
    (h : a.kind ≠ b.kind) :
    a.gt c b = Except.ok Option.none ∧
    a.ge c b = Except.ok Option.none ∧
    Quantity.lt c a b = Except.ok Option.none ∧
    Quantity.le c a b = Except.ok Option.none ∧
    a.eq c b = Except.ok false := by
  refine And.intro ?_ (And.intro ?_ (And.intro ?_ (And.intro ?_ ?_)))
  · simp [Quantity.gt, h]
  · simp [Quantity.ge, h]
  · simp [Quantity.lt, Quantity.gt, Ne.symm h]
  · simp [Quantity.le, Quantity.ge, Ne.symm h]
  · simp [Quantity.eq, h]

/-- Witness for Claim C10: comparing a Length and a Mass. -/
theorem cross_kind_comparison_spec_witness :
    ("Length" : String) ≠ "Mass" ∧
    Quantity.gt defaultConfig
        (Quantity.mk "Length" zus.length (Option.some 1) zus.meter)
        (Quantity.mk "Mass" zus.mass (Option.some 1) zus.kilogram) =
      Except.ok Option.none ∧
    Quantity.le defaultConfig
        (Quantity.mk "Length" zus.length (Option.some 1) zus.meter)
        (Quantity.mk "Mass" zus.mass (Option.some 1) zus.kilogram) =
      Except.ok Option.none ∧
    Quantity.eq defaultConfig
        (Quantity.mk "Length" zus.length (Option.some 1) zus.meter)
        (Quantity.mk "Mass" zus.mass (Option.some 1) zus.kilogram) =
      Except.ok false := by
  have h := cross_kind_comparison_spec defaultConfig
    (Quantity.mk "Length" zus.length (Option.some 1) zus.meter)
    (Quantity.mk "Mass" zus.mass (Option.some 1) zus.kilogram) (by decide)
  exact And.intro (by decide) (And.intro h.1 (And.intro h.2.2.2.1 h.2.2.2.2))

/-- Evaluation of the z_units conversion MolarFlow(1, Nm3/h) -> Sm3/h: the
result does not mention the configuration at all, because the Sm**3/h factor
of z_units/unit.py was frozen at import time to its default-configuration
value. -/
theorem zus_nm3hToSm3h_eval (c : Config) :
    zus.nm3hToSm3h c = Except.ok (Option.some (Quantity.mk "MolarFlow"
      zus.molar_flow (Option.some (5863/5463))
      zus.standard_cubic_meter_per_hour)) := by
  rw [show zus.nm3hToSm3h c = Except.ok (Option.some (Quantity.mk "MolarFlow"
    zus.molar_flow (Option.some
      (zus.standard_cubic_meter_per_hour.from_base_unit c
        (zus.normal_cubic_meter_per_hour.to_base_unit c 1)))
    zus.standard_cubic_meter_per_hour)) from rfl]
  norm_num [ZUnit.from_base_unit, ZUnit.to_base_unit, Param.resolve,
    zus.standard_cubic_meter_per_hour, zus.normal_cubic_meter_per_hour,
    defaultConfig, zusATM]

/-- Claim C4 (divergence witness): with the z_units catalog the conversion
MolarFlow(1, Nm3/h).to(Sm3/h) returns the same result under standard
temperature 15 as under standard temperature 20, and indeed under every pair
of configurations: the Sm**3/h factor of z_units/unit.py line 300 is
evaluated once at import (standard_cubic_meter.factor is a property call),
so the conversion never reads the live configuration, contradicting the
claimed sensitivity asserted by the spec and by
src/tests/test_nonlinear_convertion.py. -/
theorem zus_sm3h_conversion_config_insensitive :
    zus.nm3hToSm3h (Config.mk 15 zusATM) = zus.nm3hToSm3h (Config.mk 20 zusATM) ∧
    (∀ c₁ c₂ : Config, zus.nm3hToSm3h c₁ = zus.nm3hToSm3h c₂) := by
  constructor
  · rw [zus_nm3hToSm3h_eval, zus_nm3hToSm3h_eval]
  · intro c₁ c₂
    rw [zus_nm3hToSm3h_eval, zus_nm3hToSm3h_eval]

/-- Evaluation of the z_unit conversion MolarFlow(1, Nm3/h) -> Sm3/h, whose
Sm**3/h factor is the dynamic lambda of z_unit/unit.py: the result is
(273.15 + T) / 273.15 at standard temperature T. -/
theorem zu_nm3hToSm3h_eval (c : Config) :
    zuNm3hToSm3h c = Except.ok (Option.some (Quantity.mk "MolarFlow"
      zu.molar_flow
      (Option.some ((5463/20 + c.standard_temperature) / (5463/20)))
      zu.standard_cubic_meter_per_hour)) := by
  rw [show zuNm3hToSm3h c = Except.ok (Option.some (Quantity.mk "MolarFlow"
    zu.molar_flow (Option.some
      (zu.standard_cubic_meter_per_hour.from_base_unit c
        (zu.normal_cubic_meter_per_hour.to_base_unit c 1)))
    zu.standard_cubic_meter_per_hour)) from rfl]
  have hT : (5463/20 : ℚ) + c.standard_temperature ≠ 0 ∨
      (5463/20 : ℚ) + c.standard_temperature = 0 := by
    by_cases h : (5463/20 : ℚ) + c.standard_temperature = 0
    · exact Or.inr h
    · exact Or.inl h
  simp only [ZUnit.from_base_unit, ZUnit.to_base_unit, Param.resolve,
    zu.standard_cubic_meter_per_hour, zu.normal_cubic_meter_per_hour,
    Except.ok.injEq, Option.some.injEq, Quantity.mk.injEq, and_true, true_and]
  rcases hT with h | h
  · field_simp
    ring
  · rw [h]
    norm_num

/-- The intended behavior asserted by Claim C4, exhibited by the dynamic
z_unit catalog: the conversion differs between standard temperatures 15 and
20, and restoring the standard temperature restores the result exactly. -/
theorem zu_sm3h_conversion_tracks_config :
    zuNm3hToSm3h (Config.mk 15 zusATM) ≠ zuNm3hToSm3h (Config.mk 20 zusATM) ∧
    (∀ c₁ c₂ : Config, c₁.standard_temperature = c₂.standard_temperature →
      zuNm3hToSm3h c₁ = zuNm3hToSm3h c₂) := by
  constructor
  · rw [zu_nm3hToSm3h_eval, zu_nm3hToSm3h_eval]
    simp only [ne_eq, Except.ok.injEq, Option.some.injEq, Quantity.mk.injEq,
      true_and, and_true]
    intro h
    norm_num at h
  · intro c₁ c₂ h
    rw [zu_nm3hToSm3h_eval, zu_nm3hToSm3h_eval, h]

/-- Evaluation of Pressure(p, kPa).to(kPag) through the z_units catalog: the
kPag unit has factor 1 and its offset is the live local atmospheric pressure,
so the converted value is p minus the configured atmospheric pressure. -/
theorem kPaToKPag_eval (c : Config) (p : ℚ) :
    zus.kPaToKPag c p = Except.ok (Option.some (Quantity.mk "Pressure"
      zus.pressure (Option.some (p - c.local_atmospheric_pressure))
      zus.kilopascal_gauge)) := by
  rw [show zus.kPaToKPag c p = Except.ok (Option.some (Quantity.mk "Pressure"
    zus.pressure (Option.some (zus.kilopascal_gauge.from_base_unit c
      (zus.kilopascal.to_base_unit c p))) zus.kilopascal_gauge)) from rfl]
  simp only [ZUnit.from_base_unit, ZUnit.to_base_unit, Param.resolve,
    zus.kilopascal, zus.kilopascal_gauge, Except.ok.injEq, Option.some.injEq,
    Quantity.mk.injEq, true_and, and_true]
  ring

/-- Claim C5: converting an absolute pressure p in kPa to the gauge unit kPag
follows gauge = absolute - atmospheric with the atmospheric pressure read
from the live configuration: the result value is exactly
p - local_atmospheric_pressure, it is strictly decreasing in the configured
atmospheric pressure, and raising the configured pressure by d lowers the
converted value by exactly d (the offset difference). -/
theorem kpa_to_kpag_spec :
    (∀ c p, zus.kPaToKPag c p = Except.ok (Option.some (Quantity.mk "Pressure"
      zus.pressure (Option.some (p - c.local_atmospheric_pressure))
      zus.kilopascal_gauge))) ∧
    (∀ (p : ℚ) (c₁ c₂ : Config),
      c₁.local_atmospheric_pressure < c₂.local_atmospheric_pressure →
      ∃ v₁ v₂, zus.kPaToKPag c₁ p = Except.ok (Option.some (Quantity.mk
          "Pressure" zus.pressure (Option.some v₁) zus.kilopascal_gauge)) ∧
        zus.kPaToKPag c₂ p = Except.ok (Option.some (Quantity.mk
          "Pressure" zus.pressure (Option.some v₂) zus.kilopascal_gauge)) ∧
        v₂ < v₁ ∧
        v₁ - v₂ = c₂.local_atmospheric_pressure -
          c₁.local_atmospheric_pressure) := by
  constructor
  · exact kPaToKPag_eval
  · intro p c₁ c₂ h
    refine Exists.intro (p - c₁.local_atmospheric_pressure)
      (Exists.intro (p - c₂.local_atmospheric_pressure) ?_)
    refine And.intro (kPaToKPag_eval c₁ p)
      (And.intro (kPaToKPag_eval c₂ p) (And.intro ?_ ?_))
    · linarith
    · ring

/-- Witness for Claim C5: p = 100 kPa, atmospheric pressure raised from the
default 101.325 to 50000. -/
theorem kpa_to_kpag_spec_witness :
    zus.kPaToKPag defaultConfig 100 = Except.ok (Option.some (Quantity.mk
      "Pressure" zus.pressure
      (Option.some (100 - defaultConfig.local_atmospheric_pressure))
      zus.kilopascal_gauge)) ∧
    defaultConfig.local_atmospheric_pressure <
      (Config.mk 20 50000).local_atmospheric_pressure ∧
    (∃ v₁ v₂, zus.kPaToKPag defaultConfig 100 = Except.ok (Option.some
        (Quantity.mk "Pressure" zus.pressure (Option.some v₁)
          zus.kilopascal_gauge)) ∧
      zus.kPaToKPag (Config.mk 20 50000) 100 = Except.ok (Option.some
        (Quantity.mk "Pressure" zus.pressure (Option.some v₂)
          zus.kilopascal_gauge)) ∧
      v₂ < v₁ ∧
      v₁ - v₂ = (Config.mk 20 50000).local_atmospheric_pressure -
        defaultConfig.local_atmospheric_pressure) := by
  have hlt : defaultConfig.local_atmospheric_pressure <
      (Config.mk 20 50000).local_atmospheric_pressure := by
    norm_num [defaultConfig, zusATM]
  exact And.intro (kpa_to_kpag_spec.1 defaultConfig 100)
    (And.intro hlt (kpa_to_kpag_spec.2 100 defaultConfig
      (Config.mk 20 50000) hlt))

/-- Claim C6 counterexample: the Unit constructor of z_units/unit.py accepts
a literal factor 0: construction returns a Unit holding factor 0, with no
failure (the constructor has no error channel at all). -/
theorem zus_unit_zero_factor_accepted :
    zusMkUnit "x" (Param.lit 0) (Param.lit 0) =
      ZUnit.mk "x" (Param.lit 0) (Param.lit 0) := rfl

/-- Claim C6 as amended: in the z_unit variant, constructing a Unit with a
literal factor 0 fails with the invalid-unit ValueError for every symbol and
offset, and any nonzero literal factor is accepted; the z_units variant
performs no such check. -/
theorem zu_unit_zero_factor_check (c : Config) (sym : String) (off : Param) :
    zuMkUnit c sym Option.none (Param.lit 0) off =
      Except.error "Factor shall not be 0" ∧
    (∀ f : ℚ, f ≠ 0 → zuMkUnit c sym Option.none (Param.lit f) off =
      Except.ok (ZUnit.mk (stripSpaces sym) (Param.lit f) off)) := by
  constructor
  · simp [zuMkUnit, Param.isZeroLit]
  · intro f hf
    simp [zuMkUnit, Param.isZeroLit, hf]

/-- Witness for the amended Claim C6: symbol "k Pa", offset 0, nonzero
factor 2. -/
theorem zu_unit_zero_factor_check_witness :
    zuMkUnit defaultConfig "k Pa" Option.none (Param.lit 0) (Param.lit 0) =
      Except.error "Factor shall not be 0" ∧
    ((2 : ℚ) ≠ 0 ∧
      zuMkUnit defaultConfig "k Pa" Option.none (Param.lit 2) (Param.lit 0) =
        Except.ok (ZUnit.mk (stripSpaces "k Pa") (Param.lit 2) (Param.lit 0))) :=
  And.intro
    (zu_unit_zero_factor_check defaultConfig "k Pa" (Param.lit 0)).1
    (And.intro (by norm_num)
      ((zu_unit_zero_factor_check defaultConfig "k Pa" (Param.lit 0)).2 2
        (by norm_num)))

/-- Claim C7 counterexample: get_unit does not normalize its query.  The
query "k Pa" normalizes to the registered symbol "kPa" under the
whitespace-stripping used at construction, yet get_unit fails on it, while
the already-normalized query "kPa" succeeds. -/
theorem get_unit_no_normalization_counterexample :
    zus.pressure.get_unit "k Pa" = Except.error "unit not found" ∧
    stripSpaces "k Pa" = "kPa" ∧
    zus.pressure.get_unit "kPa" = Except.ok zus.kilopascal := by
  exact And.intro rfl (And.intro rfl rfl)

/-- Claim C7 as amended: get_unit is an exact-match lookup of the raw query
string against the stored symbols (which were whitespace-stripped at
construction): when some registered unit carries exactly the query symbol
the lookup returns such a unit, and it fails with the unit-not-found error
exactly when no registered unit carries the query symbol; no normalization
is applied to the query itself. -/
theorem get_unit_exact_match_spec (r : UnitRegistry) (s : String) :
    ((∃ u ∈ r.units, u.symbol = s) → ∃ u, r.get_unit s = Except.ok u ∧
      u ∈ r.units ∧ u.symbol = s) ∧
    ((∀ u ∈ r.units, u.symbol ≠ s) →
      r.get_unit s = Except.error "unit not found") := by
  constructor
  · intro h
    have hsome : (r.units.find? (fun u => u.symbol == s)).isSome := by
      rw [List.find?_isSome]
      rcases h with ⟨u, hu, he⟩
      exact ⟨u, hu, by simp [he]⟩
    rcases Option.isSome_iff_exists.mp hsome with ⟨u, hu⟩
    refine ⟨u, ?_, List.mem_of_find?_eq_some hu, ?_⟩
    · simp [UnitRegistry.get_unit, hu]
    · have := List.find?_some hu
      simpa using this
  · intro h
    have hnone : r.units.find? (fun u => u.symbol == s) = Option.none := by
      rw [List.find?_eq_none]
      intro u hu
      simp [h u hu]
    simp [UnitRegistry.get_unit, hnone]

/-- Witness for the amended Claim C7: the kPa lookup in the z_units pressure
registry, and the miss of the never-registered symbol zzz. -/
theorem get_unit_exact_match_spec_witness :
    (∃ u ∈ zus.pressure.units, u.symbol = "kPa") ∧
    (∃ u, zus.pressure.get_unit "kPa" = Except.ok u ∧
      u ∈ zus.pressure.units ∧ u.symbol = "kPa") ∧
    (∀ u ∈ zus.pressure.units, u.symbol ≠ "zzz") ∧
    zus.pressure.get_unit "zzz" = Except.error "unit not found" := by
  have h1 : ∃ u ∈ zus.pressure.units, u.symbol = "kPa" := by
    exact ⟨zus.kilopascal, by simp [zus.pressure], rfl⟩
  have h2 : ∀ u ∈ zus.pressure.units, u.symbol ≠ "zzz" := by
    decide
  exact And.intro h1 (And.intro
    ((get_unit_exact_match_spec zus.pressure "kPa").1 h1)
    (And.intro h2 ((get_unit_exact_match_spec zus.pressure "zzz").2 h2)))

/-- Scanning lemma: when no family in the list contains both symbols, the
convert loop falls through to the ValueError. -/
theorem convertGo_no_match (c : Config) (v : ℚ) (f t : String) :
    ∀ l : List (String × UnitRegistry),
      (∀ p ∈ l, ¬(f ∈ p.2.symbols ∧ t ∈ p.2.symbols)) →
      convertGo c v f t l = Except.error "cannot convert" := by
  intro l
  induction l with
  | nil => intro _; rfl
  | cons p rest ih =>
    intro h
    cases p with
    | mk k r =>
      have hp := h (k, r) (by simp)
      simp only [convertGo]
      rw [if_neg hp]
      exact ih (fun q hq => h q (List.mem_cons_of_mem _ hq))

/-- Scanning lemma: the first family whose symbol set contains both symbols
wins, whatever comes after it. -/
theorem convertGo_first_match (c : Config) (v : ℚ) (f t k : String)
    (r : UnitRegistry) (l₂ : List (String × UnitRegistry)) :
    ∀ l₁, (∀ p ∈ l₁, ¬(f ∈ p.2.symbols ∧ t ∈ p.2.symbols)) →
      (f ∈ r.symbols ∧ t ∈ r.symbols) →
      convertGo c v f t (l₁ ++ (k, r) :: l₂) = convertVia c v k r f t := by
  intro l₁
  induction l₁ with
  | nil =>
    intro _ hr
    simp only [List.nil_append, convertGo]
    rw [if_pos hr]
  | cons p rest ih =>
    intro h hr
    cases p with
    | mk pk pr =>
      have hp := h (pk, pr) (by simp)
      simp only [List.cons_append, convertGo]
      rw [if_neg hp]
      exact ih (fun q hq => h q (List.mem_cons_of_mem _ hq)) hr

/-- Claim C8: convert scans the quantity-kind families in catalog iteration
order; the first family whose symbol set contains both symbols performs the
conversion Q(value, from).to(to), and when no family contains both symbols
convert fails with the no-matching-family ValueError.  Concretely,
convert(1, m, ft) goes through the Length family and returns 1250/381, which
is within 1e-6 of 3.2808399, and convert(1, m, xyz) fails. -/
theorem convert_spec :
    (∀ (c : Config) (v : ℚ) (f t k : String) (r : UnitRegistry)
      (l₁ l₂ : List (String × UnitRegistry)),
      quantity_registry = l₁ ++ (k, r) :: l₂ →
      (∀ p ∈ l₁, ¬(f ∈ p.2.symbols ∧ t ∈ p.2.symbols)) →
      (f ∈ r.symbols ∧ t ∈ r.symbols) →
      convert c v f t = convertVia c v k r f t) ∧
    (∀ (c : Config) (v : ℚ) (f t : String),
      (∀ p ∈ quantity_registry, ¬(f ∈ p.2.symbols ∧ t ∈ p.2.symbols)) →
      convert c v f t = Except.error "cannot convert") ∧
    convert defaultConfig 1 "m" "ft" = Except.ok (Option.some (Quantity.mk
      "Length" zu.length (Option.some (1250/381)) zu.foot)) ∧
    |(1250/381 : ℚ) - 32808399/10000000| < 1/1000000 ∧
    convert defaultConfig 1 "m" "xyz" = Except.error "cannot convert" := by
  refine And.intro ?_ (And.intro ?_ (And.intro ?_ (And.intro ?_ ?_)))
  · intro c v f t k r l₁ l₂ hsplit h1 h2
    rw [convert, hsplit]
    exact convertGo_first_match c v f t k r l₂ l₁ h1 h2
  · intro c v f t h
    rw [convert]
    exact convertGo_no_match c v f t quantity_registry h
  · rw [show convert defaultConfig 1 "m" "ft" = Except.ok (Option.some
      (Quantity.mk "Length" zu.length (Option.some
        (zu.foot.from_base_unit defaultConfig
          (zu.meter.to_base_unit defaultConfig 1))) zu.foot)) from rfl]
    norm_num [ZUnit.from_base_unit, ZUnit.to_base_unit, Param.resolve,
      zu.foot, zu.meter]
  · rw [abs_lt]
    constructor <;> norm_num
  · rfl

/-- Witness for Claim C8: the length family is the first catalog entry and
contains both m and mm, so convert(1, m, mm) converts through Length. -/
theorem convert_spec_witness :
    (("m" : String) ∈ zu.length.symbols ∧ ("mm" : String) ∈ zu.length.symbols) ∧
    convert defaultConfig 1 "m" "mm" =
      convertVia defaultConfig 1 "Length" zu.length "m" "mm" := by
  have hmem : ("m" : String) ∈ zu.length.symbols ∧
      ("mm" : String) ∈ zu.length.symbols := by decide
  exact And.intro hmem
    (convert_spec.1 defaultConfig 1 "m" "mm" "Length" zu.length []
      quantity_registry.tail rfl (by simp) hmem)
